import Mathlib

/-!
Shallow embedding of the `dd_coding_challenge` profile-metrics service
(`app/profiles/profiles.py`, `app/profiles/util.py`, `app/profiles/exc.py`).

HTTP interactions are modelled explicitly: a remote provider is an
environment mapping a URL to the `Response` the provider would return, and
every operation that issues requests reports the number of requests it made.
Pagination `while` loops take a fuel parameter; exhausting the fuel models a
non-terminating loop (`Fetched.fuelOut`).  Per-instance cached state
(`self._loaded_state`, a dict populated with a fixed set of string keys) is
modelled as a record with one `Option` field per key used by the adapter.
-/

/-- Error taxonomy of `app/profiles/exc.py`.  `ProfileNotFoundError` and
`UpstreamRateLimit` subclass `APIError` in the source; here they are separate
constructors of one error type.  `upstreamRateLimit` carries the provider name
(the constructor argument in `raise exc.UpstreamRateLimit(self.PROVIDER)`),
the other two carry their message strings. -/
inductive ApiErr where
  | profileNotFoundError (msg : String)
  | upstreamRateLimit (provider : String)
  | apiError (msg : String)
deriving DecidableEq, Repr

/-- A `requests.Response` as consumed by the code: its status code, the
method and URL of the request that produced it (read by the error message of
`_handle_response`), the parsed JSON body, and the parsed `Link`-header
relations (`response.links`, a mapping from relation name to URL, read by
`GitHubProfileSummary._get_next_linked_url`). -/
structure Response (β : Type) where
  status : Nat
  reqMethod : String
  reqUrl : String
  body : β
  links : List (String × String)
deriving DecidableEq, Repr

/-- `ProfileSummary._handle_response` (profiles.py:58-81): if the status code
is not among the acceptable ones, raise `UpstreamRateLimit(PROVIDER)` on 403
and a generic `APIError` naming method, URL and status otherwise; else return
the response unchanged.  The call sites pass `(200,)` (the Python default) or
`(200, 404)` explicitly. -/
def handle_response {β : Type} (provider : String) (response : Response β)
    (acceptable_status_codes : List Nat) : Except ApiErr (Response β) :=
  if response.status ∉ acceptable_status_codes then
    if response.status = 403 then
      Except.error (ApiErr.upstreamRateLimit provider)
    else
      Except.error (ApiErr.apiError
        ("Received unexpected response for " ++ response.reqMethod ++
         " request to " ++ response.reqUrl ++ ": " ++ toString response.status))
  else
    Except.ok response

/-- `ProfileSummary.validate_username` (profiles.py:43-56), applied to the
response of `self._session.head(self._username_validation_url)`: classify the
response with acceptable codes `(200, 404)`; on 404 raise
`ProfileNotFoundError`, otherwise return `True`. -/
def validate_username {β : Type} (provider username : String)
    (rs : Response β) : Except ApiErr Bool :=
  match handle_response provider rs [200, 404] with
  | Except.error e => Except.error e
  | Except.ok rs =>
      if rs.status = 404 then
        Except.error (ApiErr.profileNotFoundError
          (provider ++ " could not find a profile for user: " ++ username))
      else
        Except.ok true

/-- Result of a paginated fetch loop: the accumulated value together with the
number of HTTP requests issued, an error raised by `_handle_response`, or
fuel exhaustion (the `while next_url` loop never terminating). -/
inductive Fetched (α : Type) where
  | ok (value : α) (requests : Nat)
  | err (e : ApiErr)
  | fuelOut
deriving DecidableEq, Repr

/-- The shared pagination traversal of both adapters (the `while next_url`
loops at profiles.py:189-192, 211-216, 303-306): while a next URL remains,
issue a GET, classify the response with `_handle_response` (acceptable:
`(200,)`), extend the accumulated records with the records of the page
(`records` extracts them from the body, e.g. `rs.json()` for GitHub or
`rs.json()['values']` for Bitbucket) and follow the provider-specific next
reference `nxt` (`_get_next_linked_url`). -/
def fetch_all_pages {β γ : Type} (provider : String)
    (env : String → Response β) (records : β → List γ)
    (nxt : Response β → Option String) :
    Nat → Option String → Fetched (List γ)
  | _, none => Fetched.ok [] 0
  | 0, some _ => Fetched.fuelOut
  | fuel + 1, some url =>
      match handle_response provider (env url) [200] with
      | Except.error e => Fetched.err e
      | Except.ok rs =>
          match fetch_all_pages provider env records nxt fuel (nxt rs) with
          | Fetched.fuelOut => Fetched.fuelOut
          | Fetched.err e => Fetched.err e
          | Fetched.ok acc n => Fetched.ok (records rs.body ++ acc) (n + 1)

/-- A well-linked page chain for `fetch_all_pages`: every URL in the list
responds with status 200, each page's next reference points at the following
URL in the list, and the last page has no next reference. -/
def chainOk {β : Type} (env : String → Response β)
    (nxt : Response β → Option String) : List String → Prop
  | [] => True
  | [u] => (env u).status = 200 ∧ nxt (env u) = none
  | u :: v :: rest =>
      (env u).status = 200 ∧ nxt (env u) = some v ∧ chainOk env nxt (v :: rest)

/-- The fields of a GitHub repository record read by the GitHub adapter:
`repo['fork']`, `repo['stargazers_count']`, `repo['open_issues_count']`,
`repo.get('language')` (nullable) and `repo.get('topics', ())`. -/
structure GHRepo where
  fork : Bool
  stargazers_count : Nat
  open_issues_count : Nat
  language : Option String
  topics : List String
deriving DecidableEq, Repr

/-- The `_loaded_state` dict of a `GitHubProfileSummary`: one optional entry
per cache key the adapter uses (`'starred_repositories'`,
`'public_repositories'`, `'count_followers'`); `none` models an absent key. -/
structure GHLoaded where
  starred_repositories : Option (List GHRepo)
  public_repositories : Option (List GHRepo)
  count_followers : Option Nat
deriving DecidableEq, Repr

/-- The empty `_loaded_state` dict (as built by `__init__` and restored by
`reset`). -/
def GHLoaded.empty : GHLoaded :=
  { starred_repositories := none, public_repositories := none,
    count_followers := none }

/-- A `GitHubProfileSummary` instance: its bound `username` and its
`_loaded_state`.  (The `requests.Session` handle carries no observable state
in this model; the responses it would deliver live in `GHEnv`.) -/
structure GHProfile where
  username : String
  loaded_state : GHLoaded
deriving DecidableEq, Repr

/-- `GitHubProfileSummary.__init__`: bind the username, start with an empty
cache. -/
def GHProfile.mk' (username : String) : GHProfile :=
  { username := username, loaded_state := GHLoaded.empty }

/-- `ProfileSummary.reset` (profiles.py:27-30) for the GitHub adapter:
`self._loaded_state.clear()`.  Pure state transformer: it takes no
environment and issues no request. -/
def gh_reset (p : GHProfile) : GHProfile :=
  { p with loaded_state := GHLoaded.empty }

/-- The remote GitHub API, as the responses `self._session.get` would
return: repository-list pages, starred-repository pages, and follower pages
(a follower page body is the list of follower records, of which only the
length is used). -/
structure GHEnv where
  reposAt : String → Response (List GHRepo)
  starredAt : String → Response (List GHRepo)
  followersAt : String → Response (List String)

/-- `GitHubProfileSummary._get_next_linked_url` (profiles.py:267-271):
`response.links['next']['url']`, `None` when the relation is absent. -/
def gh_get_next_linked_url {β : Type} (response : Response β) : Option String :=
  response.links.lookup "next"

/-- Result of reading a property of a profile object: the value together
with the instance state after the read and the number of HTTP requests the
read issued; or a raised error; or a non-terminating pagination loop. -/
inductive PropResult (σ α : Type) where
  | ok (value : α) (st : σ) (requests : Nat)
  | err (e : ApiErr)
  | fuelOut
deriving DecidableEq, Repr

/-- `GitHubProfileSummary.public_repositories` (profiles.py:198-220): serve
`self._loaded_state['public_repositories']` when present; otherwise fetch all
pages starting from `f'{self.BASE_URL}/users/{self.username}/repos'` and
store the result under that key. -/
def gh_public_repositories (env : GHEnv) (fuel : Nat) (p : GHProfile) :
    PropResult GHProfile (List GHRepo) :=
  match p.loaded_state.public_repositories with
  | some repos => PropResult.ok repos p 0
  | none =>
      match fetch_all_pages "GitHub" env.reposAt (fun b => b)
          gh_get_next_linked_url fuel
          (some ("https://api.github.com/users/" ++ p.username ++ "/repos")) with
      | Fetched.fuelOut => PropResult.fuelOut
      | Fetched.err e => PropResult.err e
      | Fetched.ok repos n =>
          PropResult.ok repos
            { p with loaded_state :=
                { p.loaded_state with public_repositories := some repos } } n

/-- `GitHubProfileSummary.starred_repositories` (profiles.py:177-196): serve
`self._loaded_state['starred_repositories']` when present; otherwise fetch
all pages starting from `f'{self.BASE_URL}/users/{self.username}/starred'`
and store the result under that key. -/
def gh_starred_repositories (env : GHEnv) (fuel : Nat) (p : GHProfile) :
    PropResult GHProfile (List GHRepo) :=
  match p.loaded_state.starred_repositories with
  | some repos => PropResult.ok repos p 0
  | none =>
      match fetch_all_pages "GitHub" env.starredAt (fun b => b)
          gh_get_next_linked_url fuel
          (some ("https://api.github.com/users/" ++ p.username ++ "/starred")) with
      | Fetched.fuelOut => PropResult.fuelOut
      | Fetched.err e => PropResult.err e
      | Fetched.ok repos n =>
          PropResult.ok repos
            { p with loaded_state :=
                { p.loaded_state with starred_repositories := some repos } } n

/-- `GitHubProfileSummary.count_stars_given` (profiles.py:168-170):
`len(self.starred_repositories)`. -/
def gh_count_stars_given (env : GHEnv) (fuel : Nat) (p : GHProfile) :
    PropResult GHProfile Nat :=
  match gh_starred_repositories env fuel p with
  | PropResult.ok repos p' n => PropResult.ok repos.length p' n
  | PropResult.err e => PropResult.err e
  | PropResult.fuelOut => PropResult.fuelOut

/-- `GitHubProfileSummary.count_stars_received` (profiles.py:172-174):
`sum(repo['stargazers_count'] for repo in self.public_repositories)`. -/
def gh_count_stars_received (env : GHEnv) (fuel : Nat) (p : GHProfile) :
    PropResult GHProfile Nat :=
  match gh_public_repositories env fuel p with
  | PropResult.ok repos p' n =>
      PropResult.ok (repos.map (fun r => r.stargazers_count)).sum p' n
  | PropResult.err e => PropResult.err e
  | PropResult.fuelOut => PropResult.fuelOut

/-- The list comprehension of
`GitHubProfileSummary.count_original_public_repositories` (profiles.py:222-224):
`len([repo for repo in repos if not repo['fork']])`. -/
def gh_count_original_of (repos : List GHRepo) : Nat :=
  (repos.filter (fun r => !r.fork)).length

/-- The list comprehension of
`GitHubProfileSummary.count_forked_public_repositories` (profiles.py:226-228):
`len([repo for repo in repos if repo['fork']])`. -/
def gh_count_forked_of (repos : List GHRepo) : Nat :=
  (repos.filter (fun r => r.fork)).length

/-- `GitHubProfileSummary.count_original_public_repositories`. -/
def gh_count_original_public_repositories (env : GHEnv) (fuel : Nat)
    (p : GHProfile) : PropResult GHProfile Nat :=
  match gh_public_repositories env fuel p with
  | PropResult.ok repos p' n => PropResult.ok (gh_count_original_of repos) p' n
  | PropResult.err e => PropResult.err e
  | PropResult.fuelOut => PropResult.fuelOut

/-- `GitHubProfileSummary.count_forked_public_repositories`. -/
def gh_count_forked_public_repositories (env : GHEnv) (fuel : Nat)
    (p : GHProfile) : PropResult GHProfile Nat :=
  match gh_public_repositories env fuel p with
  | PropResult.ok repos p' n => PropResult.ok (gh_count_forked_of repos) p' n
  | PropResult.err e => PropResult.err e
  | PropResult.fuelOut => PropResult.fuelOut

/-- `GitHubProfileSummary.count_open_issues` (profiles.py:230-232):
`sum(repo['open_issues_count'] for repo in self.public_repositories)`. -/
def gh_count_open_issues (env : GHEnv) (fuel : Nat) (p : GHProfile) :
    PropResult GHProfile Nat :=
  match gh_public_repositories env fuel p with
  | PropResult.ok repos p' n =>
      PropResult.ok (repos.map (fun r => r.open_issues_count)).sum p' n
  | PropResult.err e => PropResult.err e
  | PropResult.fuelOut => PropResult.fuelOut

/-- The counting pagination loop of `GitHubProfileSummary.count_followers`
(profiles.py:240-244): while a next URL remains, GET it, classify the
response, add `len(rs.json())` to the running count, follow the `next` link
relation. -/
def gh_count_follower_pages (env : GHEnv) :
    Nat → Option String → Fetched Nat
  | _, none => Fetched.ok 0 0
  | 0, some _ => Fetched.fuelOut
  | fuel + 1, some url =>
      match handle_response "GitHub" (env.followersAt url) [200] with
      | Except.error e => Fetched.err e
      | Except.ok rs =>
          match gh_count_follower_pages env fuel (gh_get_next_linked_url rs) with
          | Fetched.fuelOut => Fetched.fuelOut
          | Fetched.err e => Fetched.err e
          | Fetched.ok c n => Fetched.ok (rs.body.length + c) (n + 1)

/-- `GitHubProfileSummary.count_followers` (profiles.py:234-248): serve
`self._loaded_state['count_followers']` when present; otherwise count
records across all follower pages starting from
`f'{self.BASE_URL}/users/{self.username}/followers'` and store the scalar
under that key. -/
def gh_count_followers (env : GHEnv) (fuel : Nat) (p : GHProfile) :
    PropResult GHProfile Nat :=
  match p.loaded_state.count_followers with
  | some c => PropResult.ok c p 0
  | none =>
      match gh_count_follower_pages env fuel
          (some ("https://api.github.com/users/" ++ p.username ++ "/followers")) with
      | Fetched.fuelOut => PropResult.fuelOut
      | Fetched.err e => PropResult.err e
      | Fetched.ok c n =>
          PropResult.ok c
            { p with loaded_state :=
                { p.loaded_state with count_followers := some c } } n

/-- The normalisation `repo.get('language') or 'UNKNOWN'` used by both
adapters' `repositories_per_language` (profiles.py:254, 353): a missing
language, and likewise an empty string (falsy in Python), yield the sentinel
`"UNKNOWN"`. -/
def norm_language (lang : Option String) : String :=
  match lang with
  | none => "UNKNOWN"
  | some s => if s = "" then "UNKNOWN" else s

/-- One `d[k] += 1` step on a `defaultdict(int)`, modelled as an
insertion-ordered association list: increment the existing entry or append a
fresh entry with count 1. -/
def tally_add (d : List (String × Nat)) (k : String) : List (String × Nat) :=
  match d with
  | [] => [(k, 1)]
  | (k', c) :: rest =>
      if k' = k then (k', c + 1) :: rest else (k', c) :: tally_add rest k

/-- The `defaultdict(int)` tally loop: start empty, `d[k] += 1` for each key
in order. -/
def tally (ks : List String) : List (String × Nat) :=
  ks.foldl tally_add []

/-- Reading a key from a `defaultdict(int)`: the stored count, or 0 when the
key is absent. -/
def tally_get (d : List (String × Nat)) (k : String) : Nat :=
  match d with
  | [] => 0
  | (k', c) :: rest => if k' = k then c else tally_get rest k

/-- The loop body of `repositories_per_language` (identical in both
adapters, profiles.py:250-256 and 349-355): tally
`repo.get('language') or 'UNKNOWN'` over the repository list. -/
def gh_repositories_per_language_of (repos : List GHRepo) :
    List (String × Nat) :=
  tally (repos.map (fun r => norm_language r.language))

/-- The loop body of `GitHubProfileSummary.repositories_per_topic`
(profiles.py:258-265): tally every topic of every repository. -/
def gh_repositories_per_topic_of (repos : List GHRepo) :
    List (String × Nat) :=
  tally (repos.map (fun r => r.topics)).flatten

/-- `GitHubProfileSummary.repositories_per_language`: built from
`self.public_repositories`. -/
def gh_repositories_per_language (env : GHEnv) (fuel : Nat) (p : GHProfile) :
    PropResult GHProfile (List (String × Nat)) :=
  match gh_public_repositories env fuel p with
  | PropResult.ok repos p' n =>
      PropResult.ok (gh_repositories_per_language_of repos) p' n
  | PropResult.err e => PropResult.err e
  | PropResult.fuelOut => PropResult.fuelOut

/-- `GitHubProfileSummary.repositories_per_topic`: built from
`self.public_repositories`. -/
def gh_repositories_per_topic (env : GHEnv) (fuel : Nat) (p : GHProfile) :
    PropResult GHProfile (List (String × Nat)) :=
  match gh_public_repositories env fuel p with
  | PropResult.ok repos p' n =>
      PropResult.ok (gh_repositories_per_topic_of repos) p' n
  | PropResult.err e => PropResult.err e
  | PropResult.fuelOut => PropResult.fuelOut

/-- The fields of a Bitbucket repository record read by the Bitbucket
adapter: the truthiness of `repo.get('parent')` (forks carry a parent
reference), `repo.get('language')`, `repo['has_issues']`, and
`repo['links']['issues']['href']` (the issues sub-resource URL). -/
structure BBRepo where
  parent : Bool
  language : Option String
  has_issues : Bool
  issues_href : String
deriving DecidableEq, Repr

/-- The JSON body of a Bitbucket repository-list page: its `values` records
and its optional `next` field (read by
`BitbucketProfileSummary._get_next_linked_url`, profiles.py:364-368). -/
structure BBPage where
  values : List BBRepo
  next : Option String
deriving DecidableEq, Repr

/-- The `_loaded_state` dict of a `BitbucketProfileSummary`: one optional
entry per cache key the adapter uses (`'public_repositories'`,
`'count_open_issues'`, `'count_followers'`). -/
structure BBLoaded where
  public_repositories : Option (List BBRepo)
  count_open_issues : Option Nat
  count_followers : Option Nat
deriving DecidableEq, Repr

/-- The empty Bitbucket `_loaded_state` dict. -/
def BBLoaded.empty : BBLoaded :=
  { public_repositories := none, count_open_issues := none,
    count_followers := none }

/-- A `BitbucketProfileSummary` instance. -/
structure BBProfile where
  username : String
  loaded_state : BBLoaded
deriving DecidableEq, Repr

/-- `BitbucketProfileSummary.__init__`. -/
def BBProfile.mk' (username : String) : BBProfile :=
  { username := username, loaded_state := BBLoaded.empty }

/-- `ProfileSummary.reset` for the Bitbucket adapter:
`self._loaded_state.clear()`. -/
def bb_reset (p : BBProfile) : BBProfile :=
  { p with loaded_state := BBLoaded.empty }

/-- The remote Bitbucket API: repository-list pages, per-repository
issue-count responses (only the `size` field of the body is read), and the
follower-count response (only the `size` field is read). -/
structure BBEnv where
  reposAt : String → Response BBPage
  issuesAt : String → Response Nat
  followersAt : String → Response Nat

/-- `BitbucketProfileSummary._get_next_linked_url` (profiles.py:364-368):
`response.json()['next']`, `None` when the field is absent. -/
def bb_get_next_linked_url (response : Response BBPage) : Option String :=
  response.body.next

/-- `BitbucketProfileSummary.public_repositories` (profiles.py:290-310):
serve `self._loaded_state['public_repositories']` when present; otherwise
fetch all pages starting from
`f'{self.BASE_URL}/repositories/{self.username}'`, extending with each
page's `values`, and store the result under that key. -/
def bb_public_repositories (env : BBEnv) (fuel : Nat) (p : BBProfile) :
    PropResult BBProfile (List BBRepo) :=
  match p.loaded_state.public_repositories with
  | some repos => PropResult.ok repos p 0
  | none =>
      match fetch_all_pages "Bitbucket" env.reposAt (fun b => b.values)
          bb_get_next_linked_url fuel
          (some ("https://api.bitbucket.org/2.0/repositories/" ++ p.username)) with
      | Fetched.fuelOut => PropResult.fuelOut
      | Fetched.err e => PropResult.err e
      | Fetched.ok repos n =>
          PropResult.ok repos
            { p with loaded_state :=
                { p.loaded_state with public_repositories := some repos } } n

/-- `BitbucketProfileSummary.count_stars_given` (profiles.py:282-284):
`return 0` — no request, no state change. -/
def bb_count_stars_given (_env : BBEnv) (_fuel : Nat) (p : BBProfile) :
    PropResult BBProfile Nat :=
  PropResult.ok 0 p 0

/-- `BitbucketProfileSummary.count_stars_received` (profiles.py:286-288):
`return 0` — no request, no state change. -/
def bb_count_stars_received (_env : BBEnv) (_fuel : Nat) (p : BBProfile) :
    PropResult BBProfile Nat :=
  PropResult.ok 0 p 0

/-- The list comprehension of
`BitbucketProfileSummary.count_original_public_repositories`
(profiles.py:312-314): `len([repo for repo in repos if not repo.get('parent')])`. -/
def bb_count_original_of (repos : List BBRepo) : Nat :=
  (repos.filter (fun r => !r.parent)).length

/-- The list comprehension of
`BitbucketProfileSummary.count_forked_public_repositories`
(profiles.py:316-318): `len([repo for repo in repos if repo.get('parent')])`. -/
def bb_count_forked_of (repos : List BBRepo) : Nat :=
  (repos.filter (fun r => r.parent)).length

/-- `BitbucketProfileSummary.count_original_public_repositories`. -/
def bb_count_original_public_repositories (env : BBEnv) (fuel : Nat)
    (p : BBProfile) : PropResult BBProfile Nat :=
  match bb_public_repositories env fuel p with
  | PropResult.ok repos p' n => PropResult.ok (bb_count_original_of repos) p' n
  | PropResult.err e => PropResult.err e
  | PropResult.fuelOut => PropResult.fuelOut

/-- `BitbucketProfileSummary.count_forked_public_repositories`. -/
def bb_count_forked_public_repositories (env : BBEnv) (fuel : Nat)
    (p : BBProfile) : PropResult BBProfile Nat :=
  match bb_public_repositories env fuel p with
  | PropResult.ok repos p' n => PropResult.ok (bb_count_forked_of repos) p' n
  | PropResult.err e => PropResult.err e
  | PropResult.fuelOut => PropResult.fuelOut

/-- The generator inside `BitbucketProfileSummary.count_open_issues`
(profiles.py:325-330): for each repository with `has_issues`, GET its issues
sub-resource (filtered to open issues), classify the response, and sum the
`size` fields; evaluation is left to right and the first raised error aborts
the sum.  Returns the sum together with the number of requests issued. -/
def bb_sum_open_issues (env : BBEnv) :
    List BBRepo → Except ApiErr (Nat × Nat)
  | [] => Except.ok (0, 0)
  | r :: rest =>
      if r.has_issues then
        match handle_response "Bitbucket" (env.issuesAt r.issues_href) [200] with
        | Except.error e => Except.error e
        | Except.ok rs =>
            match bb_sum_open_issues env rest with
            | Except.error e => Except.error e
            | Except.ok (s, n) => Except.ok (rs.body + s, n + 1)
      else
        bb_sum_open_issues env rest

/-- `BitbucketProfileSummary.count_open_issues` (profiles.py:320-334): serve
`self._loaded_state['count_open_issues']` when present; otherwise read
`self.public_repositories` (itself cached), sum the open-issue counts of the
issue-enabled repositories via one request each, and store the scalar under
that key. -/
def bb_count_open_issues (env : BBEnv) (fuel : Nat) (p : BBProfile) :
    PropResult BBProfile Nat :=
  match p.loaded_state.count_open_issues with
  | some c => PropResult.ok c p 0
  | none =>
      match bb_public_repositories env fuel p with
      | PropResult.fuelOut => PropResult.fuelOut
      | PropResult.err e => PropResult.err e
      | PropResult.ok repos p' n =>
          match bb_sum_open_issues env repos with
          | Except.error e => PropResult.err e
          | Except.ok (s, n') =>
              PropResult.ok s
                { p' with loaded_state :=
                    { p'.loaded_state with count_open_issues := some s } }
                (n + n')

/-- `BitbucketProfileSummary.count_followers` (profiles.py:336-347): serve
`self._loaded_state['count_followers']` when present; otherwise issue a
single GET to the followers endpoint, take the `size` field of the body, and
store the scalar under that key. -/
def bb_count_followers (env : BBEnv) (_fuel : Nat) (p : BBProfile) :
    PropResult BBProfile Nat :=
  match p.loaded_state.count_followers with
  | some c => PropResult.ok c p 0
  | none =>
      match handle_response "Bitbucket"
          (env.followersAt
            ("https://api.bitbucket.org/2.0/users/" ++ p.username ++ "/followers"))
          [200] with
      | Except.error e => PropResult.err e
      | Except.ok rs =>
          PropResult.ok rs.body
            { p with loaded_state :=
                { p.loaded_state with count_followers := some rs.body } } 1

/-- The loop body of `BitbucketProfileSummary.repositories_per_language`
(profiles.py:349-355), same shape as the GitHub one. -/
def bb_repositories_per_language_of (repos : List BBRepo) :
    List (String × Nat) :=
  tally (repos.map (fun r => norm_language r.language))

/-- `BitbucketProfileSummary.repositories_per_language`. -/
def bb_repositories_per_language (env : BBEnv) (fuel : Nat) (p : BBProfile) :
    PropResult BBProfile (List (String × Nat)) :=
  match bb_public_repositories env fuel p with
  | PropResult.ok repos p' n =>
      PropResult.ok (bb_repositories_per_language_of repos) p' n
  | PropResult.err e => PropResult.err e
  | PropResult.fuelOut => PropResult.fuelOut

/-- `BitbucketProfileSummary.repositories_per_topic` (profiles.py:357-362):
`return {}` — topics are unsupported by Bitbucket. -/
def bb_repositories_per_topic (_env : BBEnv) (_fuel : Nat) (p : BBProfile) :
    PropResult BBProfile (List (String × Nat)) :=
  PropResult.ok [] p 0

/-- The metric surface of a `ProfileSummary` as read by the aggregator
(util.py:23-30): the values a profile object's metric properties deliver.
`repositories_per_language` / `repositories_per_topic` are the tally dicts
whose keys the aggregator collects. -/
structure ProfileMetrics where
  count_original_public_repositories : Nat
  count_forked_public_repositories : Nat
  count_followers : Nat
  count_stars_received : Nat
  count_stars_given : Nat
  count_open_issues : Nat
  repositories_per_language : List (String × Nat)
  repositories_per_topic : List (String × Nat)
deriving DecidableEq, Repr

/-- The report dict of `aggregate_profile_metrics` (util.py:9-20).  The
`languages` / `topics` entries are Python `set`s (converted to tuples in
arbitrary order only on output); they are modelled as finite sets. -/
structure MetricReport where
  public_repositories_original : Nat
  public_repositories_forked : Nat
  watchers : Nat
  stars_received : Nat
  stars_given : Nat
  open_issues : Nat
  languages : Finset String
  topics : Finset String
deriving DecidableEq

/-- The initial `metrics` dict of `aggregate_profile_metrics`
(util.py:9-20): every numeric field 0, both label sets empty. -/
def MetricReport.init : MetricReport :=
  { public_repositories_original := 0, public_repositories_forked := 0,
    watchers := 0, stars_received := 0, stars_given := 0, open_issues := 0,
    languages := ∅, topics := ∅ }

/-- `d.keys()` of a tally dict, as the set the aggregator unions in. -/
def dict_keys (d : List (String × Nat)) : Finset String :=
  (d.map Prod.fst).toFinset

/-- One iteration of the `for profile in profiles` loop of
`aggregate_profile_metrics` (util.py:22-30): add each numeric metric, union
in the label-set keys. -/
def add_profile (m : MetricReport) (p : ProfileMetrics) : MetricReport :=
  { public_repositories_original :=
      m.public_repositories_original + p.count_original_public_repositories,
    public_repositories_forked :=
      m.public_repositories_forked + p.count_forked_public_repositories,
    watchers := m.watchers + p.count_followers,
    stars_received := m.stars_received + p.count_stars_received,
    stars_given := m.stars_given + p.count_stars_given,
    open_issues := m.open_issues + p.count_open_issues,
    languages := m.languages ∪ dict_keys p.repositories_per_language,
    topics := m.topics ∪ dict_keys p.repositories_per_topic }

/-- `aggregate_profile_metrics` (util.py:1-35): fold the per-profile update
over the input list, starting from the zeroed report. -/
def aggregate_profile_metrics (profiles : List ProfileMetrics) : MetricReport :=
  profiles.foldl add_profile MetricReport.init

/-- A successful run of the pagination loop over a well-linked chain issues
one request per page and concatenates the page records in order. -/
theorem fetch_all_pages_chain {β γ : Type} (provider : String)
    (env : String → Response β) (records : β → List γ)
    (nxt : Response β → Option String) :
    ∀ (rest : List String) (u : String) (fuel : Nat),
      chainOk env nxt (u :: rest) → (u :: rest).length ≤ fuel →
      fetch_all_pages provider env records nxt fuel (some u) =
        Fetched.ok (((u :: rest).map (fun x => records (env x).body)).flatten)
          (u :: rest).length := by
  intro rest
  induction rest with
  | nil =>
      intro u fuel hc hf
      obtain ⟨hs, hn⟩ := hc
      match fuel, hf with
      | fuel + 1, _ =>
        simp only [fetch_all_pages, handle_response, hs]
        norm_num
        rw [hn]
        simp [fetch_all_pages]
  | cons v rest ih =>
      intro u fuel hc hf
      obtain ⟨hs, hn, hc'⟩ := hc
      match fuel, hf with
      | fuel + 1, hf =>
        have hf' : (v :: rest).length ≤ fuel := by
          simpa [Nat.succ_le_succ_iff] using hf
        simp only [fetch_all_pages, handle_response, hs]
        norm_num
        rw [hn, ih v fuel hc' hf']
        simp [Nat.add_comm]

/-- The response classifier never produces a `ProfileNotFoundError`. -/
theorem handle_response_not_notFound {β : Type} (provider : String)
    (rs : Response β) (acceptable : List Nat) (m : String) :
    handle_response provider rs acceptable ≠
      Except.error (ApiErr.profileNotFoundError m) := by
  unfold handle_response
  split
  · split <;> simp
  · simp

/-- Every error of the pagination loop comes from the response classifier,
hence is never a `ProfileNotFoundError`. -/
theorem fetch_all_pages_err_not_notFound {β γ : Type} (provider : String)
    (env : String → Response β) (records : β → List γ)
    (nxt : Response β → Option String) :
    ∀ (fuel : Nat) (u : Option String) (m : String),
      fetch_all_pages provider env records nxt fuel u ≠
        Fetched.err (ApiErr.profileNotFoundError m) := by
  intro fuel
  induction fuel with
  | zero => intro u m; cases u <;> simp [fetch_all_pages]
  | succ fuel ih =>
      intro u m
      cases u with
      | none => simp [fetch_all_pages]
      | some url =>
          intro h
          simp only [fetch_all_pages] at h
          split at h
          · rename_i e heq
            simp only [Fetched.err.injEq] at h
            subst h
            exact handle_response_not_notFound provider (env url) [200] m heq
          · rename_i rs heq
            split at h
            · simp at h
            · rename_i e heq2
              simp only [Fetched.err.injEq] at h
              subst h
              exact ih (nxt rs) m heq2
            · simp at h

/-- Every error of the follower-counting loop comes from the response
classifier, hence is never a `ProfileNotFoundError`. -/
theorem gh_count_follower_pages_err_not_notFound (env : GHEnv) :
    ∀ (fuel : Nat) (u : Option String) (m : String),
      gh_count_follower_pages env fuel u ≠
        Fetched.err (ApiErr.profileNotFoundError m) := by
  intro fuel
  induction fuel with
  | zero => intro u m; cases u <;> simp [gh_count_follower_pages]
  | succ fuel ih =>
      intro u m
      cases u with
      | none => simp [gh_count_follower_pages]
      | some url =>
          intro h
          simp only [gh_count_follower_pages] at h
          split at h
          · rename_i e heq
            simp only [Fetched.err.injEq] at h
            subst h
            exact handle_response_not_notFound "GitHub" (env.followersAt url) [200] m heq
          · rename_i rs heq
            split at h
            · simp at h
            · rename_i e heq2
              simp only [Fetched.err.injEq] at h
              subst h
              exact ih (gh_get_next_linked_url rs) m heq2
            · simp at h

/-- Every error of the per-repository open-issue sum comes from the response
classifier, hence is never a `ProfileNotFoundError`. -/
theorem bb_sum_open_issues_err_not_notFound (env : BBEnv) :
    ∀ (repos : List BBRepo) (m : String),
      bb_sum_open_issues env repos ≠
        Except.error (ApiErr.profileNotFoundError m) := by
  intro repos
  induction repos with
  | nil => intro m; simp [bb_sum_open_issues]
  | cons r rest ih =>
      intro m
      intro h
      simp only [bb_sum_open_issues] at h
      by_cases hi : r.has_issues
      · rw [if_pos hi] at h
        split at h
        · rename_i e heq
          simp only [Except.error.injEq] at h
          subst h
          exact handle_response_not_notFound "Bitbucket" (env.issuesAt r.issues_href) [200] m heq
        · rename_i rs heq
          split at h
          · rename_i e heq2
            simp only [Except.error.injEq] at h
            subst h
            exact ih m heq2
          · simp at h
      · rw [if_neg hi] at h
        exact ih m h

/-- A pagination loop started at a concrete URL issues at least one request
when it succeeds. -/
theorem fetch_all_pages_pos {β γ : Type} (provider : String)
    (env : String → Response β) (records : β → List γ)
    (nxt : Response β → Option String) (fuel : Nat) (u : String)
    (v : List γ) (n : Nat)
    (h : fetch_all_pages provider env records nxt fuel (some u) =
      Fetched.ok v n) : 1 ≤ n := by
  cases fuel with
  | zero => simp [fetch_all_pages] at h
  | succ fuel =>
      simp only [fetch_all_pages] at h
      split at h
      · simp at h
      · split at h
        · simp at h
        · simp at h
        · simp only [Fetched.ok.injEq] at h
          omega

/-- The follower-counting loop started at a concrete URL issues at least one
request when it succeeds. -/
theorem gh_count_follower_pages_pos (env : GHEnv) (fuel : Nat) (u : String)
    (c n : Nat)
    (h : gh_count_follower_pages env fuel (some u) = Fetched.ok c n) :
    1 ≤ n := by
  cases fuel with
  | zero => simp [gh_count_follower_pages] at h
  | succ fuel =>
      simp only [gh_count_follower_pages] at h
      split at h
      · simp at h
      · split at h
        · simp at h
        · simp at h
        · simp only [Fetched.ok.injEq] at h
          omega

/-- A successful first read of `GitHubProfileSummary.public_repositories`
stores the result under its cache key; any later read (under any environment
and any fuel) is served from the cache: same value, unchanged state, zero
requests. -/
theorem gh_public_repositories_memo (env : GHEnv) (fuel : Nat) (p : GHProfile)
    (v : List GHRepo) (p' : GHProfile) (n : Nat)
    (h : gh_public_repositories env fuel p = PropResult.ok v p' n) :
    p'.loaded_state.public_repositories = some v ∧
    ∀ (env₂ : GHEnv) (fuel₂ : Nat),
      gh_public_repositories env₂ fuel₂ p' = PropResult.ok v p' 0 := by
  unfold gh_public_repositories at h
  split at h
  · rename_i repos hc
    simp only [PropResult.ok.injEq] at h
    obtain ⟨h1, h2, h3⟩ := h
    subst h1
    subst h2
    exact ⟨hc, fun env₂ fuel₂ => by simp [gh_public_repositories, hc]⟩
  · rename_i hc
    split at h
    · simp at h
    · simp at h
    · rename_i repos nn heq
      simp only [PropResult.ok.injEq] at h
      obtain ⟨h1, h2, h3⟩ := h
      subst h1
      subst h2
      subst h3
      refine ⟨by simp, fun env₂ fuel₂ => ?_⟩
      simp [gh_public_repositories]

/-- A successful first read of `GitHubProfileSummary.starred_repositories`
stores the result under its cache key; any later read is served from the
cache. -/
theorem gh_starred_repositories_memo (env : GHEnv) (fuel : Nat) (p : GHProfile)
    (v : List GHRepo) (p' : GHProfile) (n : Nat)
    (h : gh_starred_repositories env fuel p = PropResult.ok v p' n) :
    p'.loaded_state.starred_repositories = some v ∧
    ∀ (env₂ : GHEnv) (fuel₂ : Nat),
      gh_starred_repositories env₂ fuel₂ p' = PropResult.ok v p' 0 := by
  unfold gh_starred_repositories at h
  split at h
  · rename_i repos hc
    simp only [PropResult.ok.injEq] at h
    obtain ⟨h1, h2, h3⟩ := h
    subst h1
    subst h2
    exact ⟨hc, fun env₂ fuel₂ => by simp [gh_starred_repositories, hc]⟩
  · rename_i hc
    split at h
    · simp at h
    · simp at h
    · rename_i repos nn heq
      simp only [PropResult.ok.injEq] at h
      obtain ⟨h1, h2, h3⟩ := h
      subst h1
      subst h2
      subst h3
      refine ⟨by simp, fun env₂ fuel₂ => ?_⟩
      simp [gh_starred_repositories]

/-- A successful first read of `GitHubProfileSummary.count_followers` stores
the scalar under its cache key; any later read is served from the cache. -/
theorem gh_count_followers_memo (env : GHEnv) (fuel : Nat) (p : GHProfile)
    (v : Nat) (p' : GHProfile) (n : Nat)
    (h : gh_count_followers env fuel p = PropResult.ok v p' n) :
    p'.loaded_state.count_followers = some v ∧
    ∀ (env₂ : GHEnv) (fuel₂ : Nat),
      gh_count_followers env₂ fuel₂ p' = PropResult.ok v p' 0 := by
  unfold gh_count_followers at h
  split at h
  · rename_i c hc
    simp only [PropResult.ok.injEq] at h
    obtain ⟨h1, h2, h3⟩ := h
    subst h1
    subst h2
    exact ⟨hc, fun env₂ fuel₂ => by simp [gh_count_followers, hc]⟩
  · rename_i hc
    split at h
    · simp at h
    · simp at h
    · rename_i c nn heq
      simp only [PropResult.ok.injEq] at h
      obtain ⟨h1, h2, h3⟩ := h
      subst h1
      subst h2
      subst h3
      refine ⟨by simp, fun env₂ fuel₂ => ?_⟩
      simp [gh_count_followers]

/-- A successful first read of `BitbucketProfileSummary.public_repositories`
stores the result under its cache key; any later read is served from the
cache. -/
theorem bb_public_repositories_memo (env : BBEnv) (fuel : Nat) (p : BBProfile)
    (v : List BBRepo) (p' : BBProfile) (n : Nat)
    (h : bb_public_repositories env fuel p = PropResult.ok v p' n) :
    p'.loaded_state.public_repositories = some v ∧
    ∀ (env₂ : BBEnv) (fuel₂ : Nat),
      bb_public_repositories env₂ fuel₂ p' = PropResult.ok v p' 0 := by
  unfold bb_public_repositories at h
  split at h
  · rename_i repos hc
    simp only [PropResult.ok.injEq] at h
    obtain ⟨h1, h2, h3⟩ := h
    subst h1
    subst h2
    exact ⟨hc, fun env₂ fuel₂ => by simp [bb_public_repositories, hc]⟩
  · rename_i hc
    split at h
    · simp at h
    · simp at h
    · rename_i repos nn heq
      simp only [PropResult.ok.injEq] at h
      obtain ⟨h1, h2, h3⟩ := h
      subst h1
      subst h2
      subst h3
      refine ⟨by simp, fun env₂ fuel₂ => ?_⟩
      simp [bb_public_repositories]

/-- A successful first read of `BitbucketProfileSummary.count_open_issues`
stores the scalar under its cache key; any later read is served from the
cache. -/
theorem bb_count_open_issues_memo (env : BBEnv) (fuel : Nat) (p : BBProfile)
    (v : Nat) (p' : BBProfile) (n : Nat)
    (h : bb_count_open_issues env fuel p = PropResult.ok v p' n) :
    p'.loaded_state.count_open_issues = some v ∧
    ∀ (env₂ : BBEnv) (fuel₂ : Nat),
      bb_count_open_issues env₂ fuel₂ p' = PropResult.ok v p' 0 := by
  unfold bb_count_open_issues at h
  split at h
  · rename_i c hc
    simp only [PropResult.ok.injEq] at h
    obtain ⟨h1, h2, h3⟩ := h
    subst h1
    subst h2
    exact ⟨hc, fun env₂ fuel₂ => by simp [bb_count_open_issues, hc]⟩
  · rename_i hc
    split at h
    · simp at h
    · simp at h
    · rename_i repos q nn heq
      split at h
      · simp at h
      · rename_i s nn2 heq2
        simp only [PropResult.ok.injEq] at h
        obtain ⟨h1, h2, h3⟩ := h
        subst h1
        subst h2
        subst h3
        refine ⟨by simp, fun env₂ fuel₂ => ?_⟩
        simp [bb_count_open_issues]

/-- A successful first read of `BitbucketProfileSummary.count_followers`
stores the scalar under its cache key; any later read is served from the
cache. -/
theorem bb_count_followers_memo (env : BBEnv) (fuel : Nat) (p : BBProfile)
    (v : Nat) (p' : BBProfile) (n : Nat)
    (h : bb_count_followers env fuel p = PropResult.ok v p' n) :
    p'.loaded_state.count_followers = some v ∧
    ∀ (env₂ : BBEnv) (fuel₂ : Nat),
      bb_count_followers env₂ fuel₂ p' = PropResult.ok v p' 0 := by
  unfold bb_count_followers at h
  split at h
  · rename_i c hc
    simp only [PropResult.ok.injEq] at h
    obtain ⟨h1, h2, h3⟩ := h
    subst h1
    subst h2
    exact ⟨hc, fun env₂ fuel₂ => by simp [bb_count_followers, hc]⟩
  · rename_i hc
    split at h
    · simp at h
    · rename_i rs heq
      simp only [PropResult.ok.injEq] at h
      obtain ⟨h1, h2, h3⟩ := h
      subst h1
      subst h2
      subst h3
      refine ⟨by simp, fun env₂ fuel₂ => ?_⟩
      simp [bb_count_followers]

/-- Repeated reads of `GitHubProfileSummary.count_stars_given` after a
successful first read are served from the starred-repositories cache. -/
theorem gh_count_stars_given_memo (env : GHEnv) (fuel : Nat) (p : GHProfile)
    (v : Nat) (p' : GHProfile) (n : Nat)
    (h : gh_count_stars_given env fuel p = PropResult.ok v p' n) :
    ∀ (env₂ : GHEnv) (fuel₂ : Nat),
      gh_count_stars_given env₂ fuel₂ p' = PropResult.ok v p' 0 := by
  intro env₂ fuel₂
  unfold gh_count_stars_given at h ⊢
  split at h
  · rename_i repos q nn heq
    simp only [PropResult.ok.injEq] at h
    obtain ⟨h1, h2, h3⟩ := h
    subst h1
    subst h2
    subst h3
    rw [(gh_starred_repositories_memo env fuel p repos q nn heq).2 env₂ fuel₂]
  · simp at h
  · simp at h

/-- Repeated reads of `GitHubProfileSummary.count_stars_received` after a
successful first read are served from the public-repositories cache. -/
theorem gh_count_stars_received_memo (env : GHEnv) (fuel : Nat) (p : GHProfile)
    (v : Nat) (p' : GHProfile) (n : Nat)
    (h : gh_count_stars_received env fuel p = PropResult.ok v p' n) :
    ∀ (env₂ : GHEnv) (fuel₂ : Nat),
      gh_count_stars_received env₂ fuel₂ p' = PropResult.ok v p' 0 := by
  intro env₂ fuel₂
  unfold gh_count_stars_received at h ⊢
  split at h
  · rename_i repos q nn heq
    simp only [PropResult.ok.injEq] at h
    obtain ⟨h1, h2, h3⟩ := h
    subst h1
    subst h2
    subst h3
    rw [(gh_public_repositories_memo env fuel p repos q nn heq).2 env₂ fuel₂]
  · simp at h
  · simp at h

/-- Repeated reads of
`GitHubProfileSummary.count_original_public_repositories` after a successful
first read are served from the public-repositories cache. -/
theorem gh_count_original_memo (env : GHEnv) (fuel : Nat) (p : GHProfile)
    (v : Nat) (p' : GHProfile) (n : Nat)
    (h : gh_count_original_public_repositories env fuel p = PropResult.ok v p' n) :
    ∀ (env₂ : GHEnv) (fuel₂ : Nat),
      gh_count_original_public_repositories env₂ fuel₂ p' = PropResult.ok v p' 0 := by
  intro env₂ fuel₂
  unfold gh_count_original_public_repositories at h ⊢
  split at h
  · rename_i repos q nn heq
    simp only [PropResult.ok.injEq] at h
    obtain ⟨h1, h2, h3⟩ := h
    subst h1
    subst h2
    subst h3
    rw [(gh_public_repositories_memo env fuel p repos q nn heq).2 env₂ fuel₂]
  · simp at h
  · simp at h

/-- Repeated reads of
`GitHubProfileSummary.count_forked_public_repositories` after a successful
first read are served from the public-repositories cache. -/
theorem gh_count_forked_memo (env : GHEnv) (fuel : Nat) (p : GHProfile)
    (v : Nat) (p' : GHProfile) (n : Nat)
    (h : gh_count_forked_public_repositories env fuel p = PropResult.ok v p' n) :
    ∀ (env₂ : GHEnv) (fuel₂ : Nat),
      gh_count_forked_public_repositories env₂ fuel₂ p' = PropResult.ok v p' 0 := by
  intro env₂ fuel₂
  unfold gh_count_forked_public_repositories at h ⊢
  split at h
  · rename_i repos q nn heq
    simp only [PropResult.ok.injEq] at h
    obtain ⟨h1, h2, h3⟩ := h
    subst h1
    subst h2
    subst h3
    rw [(gh_public_repositories_memo env fuel p repos q nn heq).2 env₂ fuel₂]
  · simp at h
  · simp at h

/-- Repeated reads of `GitHubProfileSummary.count_open_issues` after a
successful first read are served from the public-repositories cache. -/
theorem gh_count_open_issues_memo (env : GHEnv) (fuel : Nat) (p : GHProfile)
    (v : Nat) (p' : GHProfile) (n : Nat)
    (h : gh_count_open_issues env fuel p = PropResult.ok v p' n) :
    ∀ (env₂ : GHEnv) (fuel₂ : Nat),
      gh_count_open_issues env₂ fuel₂ p' = PropResult.ok v p' 0 := by
  intro env₂ fuel₂
  unfold gh_count_open_issues at h ⊢
  split at h
  · rename_i repos q nn heq
    simp only [PropResult.ok.injEq] at h
    obtain ⟨h1, h2, h3⟩ := h
    subst h1
    subst h2
    subst h3
    rw [(gh_public_repositories_memo env fuel p repos q nn heq).2 env₂ fuel₂]
  · simp at h
  · simp at h

/-- Repeated reads of `GitHubProfileSummary.repositories_per_language` after
a successful first read are served from the public-repositories cache. -/
theorem gh_repositories_per_language_memo (env : GHEnv) (fuel : Nat)
    (p : GHProfile) (v : List (String × Nat)) (p' : GHProfile) (n : Nat)
    (h : gh_repositories_per_language env fuel p = PropResult.ok v p' n) :
    ∀ (env₂ : GHEnv) (fuel₂ : Nat),
      gh_repositories_per_language env₂ fuel₂ p' = PropResult.ok v p' 0 := by
  intro env₂ fuel₂
  unfold gh_repositories_per_language at h ⊢
  split at h
  · rename_i repos q nn heq
    simp only [PropResult.ok.injEq] at h
    obtain ⟨h1, h2, h3⟩ := h
    subst h1
    subst h2
    subst h3
    rw [(gh_public_repositories_memo env fuel p repos q nn heq).2 env₂ fuel₂]
  · simp at h
  · simp at h

/-- Repeated reads of `GitHubProfileSummary.repositories_per_topic` after a
successful first read are served from the public-repositories cache. -/
theorem gh_repositories_per_topic_memo (env : GHEnv) (fuel : Nat)
    (p : GHProfile) (v : List (String × Nat)) (p' : GHProfile) (n : Nat)
    (h : gh_repositories_per_topic env fuel p = PropResult.ok v p' n) :
    ∀ (env₂ : GHEnv) (fuel₂ : Nat),
      gh_repositories_per_topic env₂ fuel₂ p' = PropResult.ok v p' 0 := by
  intro env₂ fuel₂
  unfold gh_repositories_per_topic at h ⊢
  split at h
  · rename_i repos q nn heq
    simp only [PropResult.ok.injEq] at h
    obtain ⟨h1, h2, h3⟩ := h
    subst h1
    subst h2
    subst h3
    rw [(gh_public_repositories_memo env fuel p repos q nn heq).2 env₂ fuel₂]
  · simp at h
  · simp at h

/-- Repeated reads of
`BitbucketProfileSummary.count_original_public_repositories` after a
successful first read are served from the public-repositories cache. -/
theorem bb_count_original_memo (env : BBEnv) (fuel : Nat) (p : BBProfile)
    (v : Nat) (p' : BBProfile) (n : Nat)
    (h : bb_count_original_public_repositories env fuel p = PropResult.ok v p' n) :
    ∀ (env₂ : BBEnv) (fuel₂ : Nat),
      bb_count_original_public_repositories env₂ fuel₂ p' = PropResult.ok v p' 0 := by
  intro env₂ fuel₂
  unfold bb_count_original_public_repositories at h ⊢
  split at h
  · rename_i repos q nn heq
    simp only [PropResult.ok.injEq] at h
    obtain ⟨h1, h2, h3⟩ := h
    subst h1
    subst h2
    subst h3
    rw [(bb_public_repositories_memo env fuel p repos q nn heq).2 env₂ fuel₂]
  · simp at h
  · simp at h

/-- Repeated reads of
`BitbucketProfileSummary.count_forked_public_repositories` after a
successful first read are served from the public-repositories cache. -/
theorem bb_count_forked_memo (env : BBEnv) (fuel : Nat) (p : BBProfile)
    (v : Nat) (p' : BBProfile) (n : Nat)
    (h : bb_count_forked_public_repositories env fuel p = PropResult.ok v p' n) :
    ∀ (env₂ : BBEnv) (fuel₂ : Nat),
      bb_count_forked_public_repositories env₂ fuel₂ p' = PropResult.ok v p' 0 := by
  intro env₂ fuel₂
  unfold bb_count_forked_public_repositories at h ⊢
  split at h
  · rename_i repos q nn heq
    simp only [PropResult.ok.injEq] at h
    obtain ⟨h1, h2, h3⟩ := h
    subst h1
    subst h2
    subst h3
    rw [(bb_public_repositories_memo env fuel p repos q nn heq).2 env₂ fuel₂]
  · simp at h
  · simp at h

/-- Repeated reads of `BitbucketProfileSummary.repositories_per_language`
after a successful first read are served from the public-repositories
cache. -/
theorem bb_repositories_per_language_memo (env : BBEnv) (fuel : Nat)
    (p : BBProfile) (v : List (String × Nat)) (p' : BBProfile) (n : Nat)
    (h : bb_repositories_per_language env fuel p = PropResult.ok v p' n) :
    ∀ (env₂ : BBEnv) (fuel₂ : Nat),
      bb_repositories_per_language env₂ fuel₂ p' = PropResult.ok v p' 0 := by
  intro env₂ fuel₂
  unfold bb_repositories_per_language at h ⊢
  split at h
  · rename_i repos q nn heq
    simp only [PropResult.ok.injEq] at h
    obtain ⟨h1, h2, h3⟩ := h
    subst h1
    subst h2
    subst h3
    rw [(bb_public_repositories_memo env fuel p repos q nn heq).2 env₂ fuel₂]
  · simp at h
  · simp at h

/-- Repeated reads of the constant `BitbucketProfileSummary.count_stars_given`
are identical: no request, no state change. -/
theorem bb_count_stars_given_memo (env : BBEnv) (fuel : Nat) (p : BBProfile)
    (v : Nat) (p' : BBProfile) (n : Nat)
    (h : bb_count_stars_given env fuel p = PropResult.ok v p' n) :
    ∀ (env₂ : BBEnv) (fuel₂ : Nat),
      bb_count_stars_given env₂ fuel₂ p' = PropResult.ok v p' 0 := by
  intro env₂ fuel₂
  unfold bb_count_stars_given at h ⊢
  simp only [PropResult.ok.injEq] at h
  obtain ⟨h1, h2, h3⟩ := h
  subst h1
  subst h2
  rfl

/-- Repeated reads of the constant
`BitbucketProfileSummary.count_stars_received` are identical: no request, no
state change. -/
theorem bb_count_stars_received_memo (env : BBEnv) (fuel : Nat) (p : BBProfile)
    (v : Nat) (p' : BBProfile) (n : Nat)
    (h : bb_count_stars_received env fuel p = PropResult.ok v p' n) :
    ∀ (env₂ : BBEnv) (fuel₂ : Nat),
      bb_count_stars_received env₂ fuel₂ p' = PropResult.ok v p' 0 := by
  intro env₂ fuel₂
  unfold bb_count_stars_received at h ⊢
  simp only [PropResult.ok.injEq] at h
  obtain ⟨h1, h2, h3⟩ := h
  subst h1
  subst h2
  rfl

/-- Repeated reads of the constant
`BitbucketProfileSummary.repositories_per_topic` are identical: no request,
no state change. -/
theorem bb_repositories_per_topic_memo (env : BBEnv) (fuel : Nat)
    (p : BBProfile) (v : List (String × Nat)) (p' : BBProfile) (n : Nat)
    (h : bb_repositories_per_topic env fuel p = PropResult.ok v p' n) :
    ∀ (env₂ : BBEnv) (fuel₂ : Nat),
      bb_repositories_per_topic env₂ fuel₂ p' = PropResult.ok v p' 0 := by
  intro env₂ fuel₂
  unfold bb_repositories_per_topic at h ⊢
  simp only [PropResult.ok.injEq] at h
  obtain ⟨h1, h2, h3⟩ := h
  subst h1
  subst h2
  rfl

/-- One `defaultdict` increment raises the read count of the incremented key
by one and leaves every other key unchanged. -/
theorem tally_get_tally_add (d : List (String × Nat)) (k k' : String) :
    tally_get (tally_add d k') k = tally_get d k + (if k' = k then 1 else 0) := by
  induction d with
  | nil =>
      simp only [tally_add, tally_get]
      by_cases h : k' = k
      · simp [h]
      · simp [h]
  | cons kv rest ih =>
      obtain ⟨k0, c0⟩ := kv
      simp only [tally_add]
      by_cases h0 : k0 = k'
      · subst h0
        simp only [if_pos rfl, tally_get]
        by_cases hk : k0 = k
        · simp [hk]
        · simp [hk]
      · rw [if_neg h0]
        simp only [tally_get]
        by_cases hk : k0 = k
        · subst hk
          have : ¬ k' = k0 := fun h => h0 h.symm
          simp [this]
        · simp only [if_neg hk]
          exact ih

/-- The `defaultdict` tally of a key list reads back, at each key, the
number of occurrences of that key in the list. -/
theorem tally_get_foldl (ks : List String) (d : List (String × Nat))
    (k : String) :
    tally_get (ks.foldl tally_add d) k = tally_get d k + ks.count k := by
  induction ks generalizing d with
  | nil => simp
  | cons k' rest ih =>
      simp only [List.foldl_cons, List.count_cons]
      rw [ih (tally_add d k'), tally_get_tally_add]
      by_cases h : k' = k
      · simp [h]
        omega
      · have hb : (k == k') = false := by
          simp [h]
          exact fun hh => h hh.symm
        simp [hb, h]

/-- `tally` counts occurrences. -/
theorem tally_get_tally (ks : List String) (k : String) :
    tally_get (tally ks) k = ks.count k := by
  simpa [tally, tally_get] using tally_get_foldl ks [] k

/-- A Boolean predicate and its negation partition a list: the two filtered
lengths add up to the full length. -/
theorem length_filter_not_add_length_filter {α : Type} (l : List α)
    (p : α → Bool) :
    (l.filter (fun a => !p a)).length + (l.filter p).length = l.length := by
  induction l with
  | nil => rfl
  | cons a rest ih =>
      by_cases h : p a
      · simp only [List.filter, h, Bool.not_true]
        simp [List.length_cons]
        omega
      · have hb : p a = false := by simpa using h
        simp only [List.filter, hb, Bool.not_false]
        simp [List.length_cons]
        omega

/-- Closed form of the aggregation fold started from an arbitrary
accumulator: each numeric field gains the sum of the profiles' metric, each
label set gains the union of the profiles' key sets. -/
theorem foldl_add_profile (ps : List ProfileMetrics) (m : MetricReport) :
    ps.foldl add_profile m =
      { public_repositories_original := m.public_repositories_original +
          (ps.map (fun p => p.count_original_public_repositories)).sum,
        public_repositories_forked := m.public_repositories_forked +
          (ps.map (fun p => p.count_forked_public_repositories)).sum,
        watchers := m.watchers + (ps.map (fun p => p.count_followers)).sum,
        stars_received := m.stars_received +
          (ps.map (fun p => p.count_stars_received)).sum,
        stars_given := m.stars_given +
          (ps.map (fun p => p.count_stars_given)).sum,
        open_issues := m.open_issues +
          (ps.map (fun p => p.count_open_issues)).sum,
        languages := m.languages ∪
          ps.foldr (fun p acc => dict_keys p.repositories_per_language ∪ acc) ∅,
        topics := m.topics ∪
          ps.foldr (fun p acc => dict_keys p.repositories_per_topic ∪ acc) ∅ } := by
  induction ps generalizing m with
  | nil =>
      cases m
      simp
  | cons p rest ih =>
      simp only [List.foldl_cons, List.map_cons, List.sum_cons, List.foldr_cons]
      rw [ih (add_profile m p)]
      simp [add_profile, Nat.add_assoc, Finset.union_assoc]

/-- C3: the response classifier, given a response and a set of acceptable
status codes: a status in the acceptable set passes the response through
unchanged with no error; otherwise a 403 fails with `UpstreamRateLimit`
carrying the provider name; any other status fails with a generic `APIError`
carrying the request method, URL and status code. -/
theorem C3_handle_response_classification {β : Type} (provider : String)
    (rs : Response β) (acceptable : List Nat) :
    (rs.status ∈ acceptable →
      handle_response provider rs acceptable = Except.ok rs) ∧
    (rs.status ∉ acceptable → rs.status = 403 →
      handle_response provider rs acceptable =
        Except.error (ApiErr.upstreamRateLimit provider)) ∧
    (rs.status ∉ acceptable → rs.status ≠ 403 →
      handle_response provider rs acceptable =
        Except.error (ApiErr.apiError
          ("Received unexpected response for " ++ rs.reqMethod ++
           " request to " ++ rs.reqUrl ++ ": " ++ toString rs.status))) := by
  refine ⟨fun h => ?_, fun h h403 => ?_, fun h h403 => ?_⟩
  · simp [handle_response, h]
  · have h' := h
    rw [h403] at h'
    simp [handle_response, h403, h']
  · simp [handle_response, h, h403]

/-- C3 witness: the classifier evaluated at concrete responses with status
200 (acceptable), 403 and 418 (both unacceptable against the default
`(200,)`). -/
theorem C3_handle_response_classification_witness :
    handle_response "GitHub"
        (Response.mk 200 "GET" "u" (0 : Nat) []) [200] =
      Except.ok (Response.mk 200 "GET" "u" (0 : Nat) []) ∧
    handle_response "GitHub"
        (Response.mk 403 "GET" "u" (0 : Nat) []) [200] =
      Except.error (ApiErr.upstreamRateLimit "GitHub") ∧
    handle_response "GitHub"
        (Response.mk 418 "GET" "u" (0 : Nat) []) [200] =
      Except.error (ApiErr.apiError
        ("Received unexpected response for " ++ "GET" ++
         " request to " ++ "u" ++ ": " ++ toString (418 : Nat))) := by
  refine ⟨?_, ?_, ?_⟩
  · exact (C3_handle_response_classification "GitHub"
      (Response.mk 200 "GET" "u" (0 : Nat) []) [200]).1 (by decide)
  · exact (C3_handle_response_classification "GitHub"
      (Response.mk 403 "GET" "u" (0 : Nat) []) [200]).2.1 (by decide) rfl
  · exact (C3_handle_response_classification "GitHub"
      (Response.mk 418 "GET" "u" (0 : Nat) []) [200]).2.2 (by decide) (by decide)

/-- C7: the Bitbucket adapter's `count_stars_given` and
`count_stars_received` always return 0, issue no request and leave the
instance state unchanged. -/
theorem C7_bitbucket_stars_constant_zero (env : BBEnv) (fuel : Nat)
    (p : BBProfile) :
    bb_count_stars_given env fuel p = PropResult.ok 0 p 0 ∧
    bb_count_stars_received env fuel p = PropResult.ok 0 p 0 :=
  ⟨rfl, rfl⟩

/-- C10: the fork partition is exhaustive and exclusive, for both adapters:
the original and forked counts add up to the total number of repository
records, the two filter predicates are complementary (GitHub partitions on
the fork flag, Bitbucket on the truthiness of the parent reference), and the
stateful count properties deliver exactly these counts over the fetched
repository list. -/
theorem C10_fork_partition :
    (∀ repos : List GHRepo,
      gh_count_original_of repos + gh_count_forked_of repos = repos.length) ∧
    (∀ repos : List BBRepo,
      bb_count_original_of repos + bb_count_forked_of repos = repos.length) ∧
    (∀ r : GHRepo, (!r.fork) = true ↔ ¬ r.fork = true) ∧
    (∀ r : BBRepo, (!r.parent) = true ↔ ¬ r.parent = true) ∧
    (∀ (env : GHEnv) (fuel : Nat) (p : GHProfile) (repos : List GHRepo)
       (p' : GHProfile) (n : Nat),
      gh_public_repositories env fuel p = PropResult.ok repos p' n →
      gh_count_original_public_repositories env fuel p =
          PropResult.ok (gh_count_original_of repos) p' n ∧
      gh_count_forked_public_repositories env fuel p =
          PropResult.ok (gh_count_forked_of repos) p' n) ∧
    (∀ (env : BBEnv) (fuel : Nat) (p : BBProfile) (repos : List BBRepo)
       (p' : BBProfile) (n : Nat),
      bb_public_repositories env fuel p = PropResult.ok repos p' n →
      bb_count_original_public_repositories env fuel p =
          PropResult.ok (bb_count_original_of repos) p' n ∧
      bb_count_forked_public_repositories env fuel p =
          PropResult.ok (bb_count_forked_of repos) p' n) := by
  refine ⟨?_, ?_, ?_, ?_, ?_, ?_⟩
  · intro repos
    exact length_filter_not_add_length_filter repos (fun r => r.fork)
  · intro repos
    exact length_filter_not_add_length_filter repos (fun r => r.parent)
  · intro r
    cases hr : r.fork <;> simp
  · intro r
    cases hr : r.parent <;> simp
  · intro env fuel p repos p' n h
    constructor
    · unfold gh_count_original_public_repositories
      rw [h]
    · unfold gh_count_forked_public_repositories
      rw [h]
  · intro env fuel p repos p' n h
    constructor
    · unfold bb_count_original_public_repositories
      rw [h]
    · unfold bb_count_forked_public_repositories
      rw [h]

/-- C2: `validate_username` returns true on a 200 response, raises
`ProfileNotFoundError` on a 404 response, and on any other status fails via
the shared response classifier (403 gives `UpstreamRateLimit`, anything else
a generic `APIError`); moreover `ProfileNotFoundError` arises only there:
neither the classifier nor any request-issuing loop ever produces it. -/
theorem C2_validate_username_classification {β γ : Type}
    (provider username : String) (rs : Response β) :
    (rs.status = 200 →
      validate_username provider username rs = Except.ok true) ∧
    (rs.status = 404 →
      validate_username provider username rs =
        Except.error (ApiErr.profileNotFoundError
          (provider ++ " could not find a profile for user: " ++ username))) ∧
    (rs.status ≠ 200 → rs.status ≠ 404 → rs.status = 403 →
      validate_username provider username rs =
        Except.error (ApiErr.upstreamRateLimit provider)) ∧
    (rs.status ≠ 200 → rs.status ≠ 404 → rs.status ≠ 403 →
      validate_username provider username rs =
        Except.error (ApiErr.apiError
          ("Received unexpected response for " ++ rs.reqMethod ++
           " request to " ++ rs.reqUrl ++ ": " ++ toString rs.status))) ∧
    (∀ (acceptable : List Nat) (m : String),
      handle_response provider rs acceptable ≠
        Except.error (ApiErr.profileNotFoundError m)) ∧
    (∀ (env : String → Response β) (records : β → List γ)
       (nxt : Response β → Option String) (fuel : Nat) (u : Option String)
       (m : String),
      fetch_all_pages provider env records nxt fuel u ≠
        Fetched.err (ApiErr.profileNotFoundError m)) ∧
    (∀ (env : GHEnv) (fuel : Nat) (u : Option String) (m : String),
      gh_count_follower_pages env fuel u ≠
        Fetched.err (ApiErr.profileNotFoundError m)) ∧
    (∀ (env : BBEnv) (repos : List BBRepo) (m : String),
      bb_sum_open_issues env repos ≠
        Except.error (ApiErr.profileNotFoundError m)) := by
  refine ⟨fun h => ?_, fun h => ?_, fun h200 h404 h403 => ?_,
    fun h200 h404 h403 => ?_,
    fun acceptable m => handle_response_not_notFound provider rs acceptable m,
    fun env records nxt fuel u m =>
      fetch_all_pages_err_not_notFound provider env records nxt fuel u m,
    fun env fuel u m => gh_count_follower_pages_err_not_notFound env fuel u m,
    fun env repos m => bb_sum_open_issues_err_not_notFound env repos m⟩
  · simp [validate_username, handle_response, h]
  · simp [validate_username, handle_response, h]
  · have h' := h403
    simp [validate_username, handle_response, h200, h404, h403]
  · simp [validate_username, handle_response, h200, h404, h403]

/-- C4: the aggregated report's numeric fields are the sums of the
corresponding metric across the input profiles, its label sets are the
unions of the corresponding key sets, and the empty input yields a report
with every numeric field 0 and both label sets empty. -/
theorem C4_aggregate_sums_and_unions (ps : List ProfileMetrics) :
    (aggregate_profile_metrics ps).public_repositories_original =
        (ps.map (fun p => p.count_original_public_repositories)).sum ∧
    (aggregate_profile_metrics ps).public_repositories_forked =
        (ps.map (fun p => p.count_forked_public_repositories)).sum ∧
    (aggregate_profile_metrics ps).watchers =
        (ps.map (fun p => p.count_followers)).sum ∧
    (aggregate_profile_metrics ps).stars_received =
        (ps.map (fun p => p.count_stars_received)).sum ∧
    (aggregate_profile_metrics ps).stars_given =
        (ps.map (fun p => p.count_stars_given)).sum ∧
    (aggregate_profile_metrics ps).open_issues =
        (ps.map (fun p => p.count_open_issues)).sum ∧
    (aggregate_profile_metrics ps).languages =
        ps.foldr (fun p acc => dict_keys p.repositories_per_language ∪ acc) ∅ ∧
    (aggregate_profile_metrics ps).topics =
        ps.foldr (fun p acc => dict_keys p.repositories_per_topic ∪ acc) ∅ ∧
    aggregate_profile_metrics [] =
      { public_repositories_original := 0, public_repositories_forked := 0,
        watchers := 0, stars_received := 0, stars_given := 0, open_issues := 0,
        languages := ∅, topics := ∅ } := by
  have h : aggregate_profile_metrics ps =
      ps.foldl add_profile MetricReport.init := rfl
  rw [h, foldl_add_profile ps MetricReport.init]
  refine ⟨?_, ?_, ?_, ?_, ?_, ?_, ?_, ?_, ?_⟩ <;>
    simp [MetricReport.init, aggregate_profile_metrics]

/-- C5: aggregation is commutative for a pair of profiles: aggregating
`[A, B]` and `[B, A]` produce the same report (numeric sums equal, label
sets equal as sets). -/
theorem C5_aggregate_commutative (A B : ProfileMetrics) :
    aggregate_profile_metrics [A, B] = aggregate_profile_metrics [B, A] := by
  show add_profile (add_profile MetricReport.init A) B =
    add_profile (add_profile MetricReport.init B) A
  simp only [add_profile, MetricReport.init, MetricReport.mk.injEq]
  refine ⟨by omega, by omega, by omega, by omega, by omega, by omega, ?_, ?_⟩
  · simp [Finset.empty_union]
    exact Finset.union_comm _ _
  · simp [Finset.empty_union]
    exact Finset.union_comm _ _

/-- Occurrence counting commutes with mapping: counting a key in a mapped
list counts the elements mapped onto that key. -/
theorem count_map_eq_countP {α : Type} (f : α → String) (ks : List α)
    (l : String) :
    (ks.map f).count l = ks.countP (fun x => f x == l) := by
  induction ks with
  | nil => rfl
  | cons a rest ih =>
      by_cases h : f a = l
      · simp [List.count_cons, List.countP_cons, h, ih]
      · simp [List.count_cons, List.countP_cons, h, ih]

/-- C6: the paginated-fetch traversal, given a chain of N pages in which
pages 1..N-1 each supply a next-page reference and page N supplies none,
terminates, issues exactly N requests, and returns all page records
concatenated in page order — stated for the generic loop and instantiated
for both adapters' `public_repositories` on a fresh instance. -/
theorem C6_pagination_traversal :
    (∀ (β γ : Type) (provider : String) (env : String → Response β)
       (records : β → List γ) (nxt : Response β → Option String)
       (u : String) (rest : List String) (fuel : Nat),
      chainOk env nxt (u :: rest) → (u :: rest).length ≤ fuel →
      fetch_all_pages provider env records nxt fuel (some u) =
        Fetched.ok (((u :: rest).map (fun x => records (env x).body)).flatten)
          (u :: rest).length) ∧
    (∀ (genv : GHEnv) (username : String) (rest : List String) (fuel : Nat),
      chainOk genv.reposAt gh_get_next_linked_url
          (("https://api.github.com/users/" ++ username ++ "/repos") :: rest) →
      (("https://api.github.com/users/" ++ username ++ "/repos") :: rest).length ≤ fuel →
      gh_public_repositories genv fuel (GHProfile.mk' username) =
        PropResult.ok
          (((("https://api.github.com/users/" ++ username ++ "/repos") :: rest).map
              (fun x => (genv.reposAt x).body)).flatten)
          { username := username,
            loaded_state :=
              { starred_repositories := none,
                public_repositories := some
                  (((("https://api.github.com/users/" ++ username ++ "/repos") :: rest).map
                      (fun x => (genv.reposAt x).body)).flatten),
                count_followers := none } }
          (("https://api.github.com/users/" ++ username ++ "/repos") :: rest).length) ∧
    (∀ (benv : BBEnv) (username : String) (rest : List String) (fuel : Nat),
      chainOk benv.reposAt bb_get_next_linked_url
          (("https://api.bitbucket.org/2.0/repositories/" ++ username) :: rest) →
      (("https://api.bitbucket.org/2.0/repositories/" ++ username) :: rest).length ≤ fuel →
      bb_public_repositories benv fuel (BBProfile.mk' username) =
        PropResult.ok
          (((("https://api.bitbucket.org/2.0/repositories/" ++ username) :: rest).map
              (fun x => (benv.reposAt x).body.values)).flatten)
          { username := username,
            loaded_state :=
              { public_repositories := some
                  (((("https://api.bitbucket.org/2.0/repositories/" ++ username) :: rest).map
                      (fun x => (benv.reposAt x).body.values)).flatten),
                count_open_issues := none,
                count_followers := none } }
          (("https://api.bitbucket.org/2.0/repositories/" ++ username) :: rest).length) := by
  refine ⟨?_, ?_, ?_⟩
  · intro β γ provider env records nxt u rest fuel hc hf
    exact fetch_all_pages_chain provider env records nxt rest u fuel hc hf
  · intro genv username rest fuel hc hf
    simp only [gh_public_repositories, GHProfile.mk', GHLoaded.empty]
    rw [fetch_all_pages_chain "GitHub" genv.reposAt (fun b => b)
      gh_get_next_linked_url rest
      ("https://api.github.com/users/" ++ username ++ "/repos") fuel hc hf]
  · intro benv username rest fuel hc hf
    simp only [bb_public_repositories, BBProfile.mk', BBLoaded.empty]
    rw [fetch_all_pages_chain "Bitbucket" benv.reposAt (fun b => b.values)
      bb_get_next_linked_url rest
      ("https://api.bitbucket.org/2.0/repositories/" ++ username) fuel hc hf]

/-- C9: `repositories_per_language` (both adapters) reads back, at every
label, the number of repositories whose (normalised) language is that label,
with missing languages normalised to the sentinel "UNKNOWN"; in particular
repositories with language values `["Go", null, "Go"]` produce the mapping
`Go ↦ 2, UNKNOWN ↦ 1`. -/
theorem C9_repositories_per_language_tally (ghRepos : List GHRepo)
    (bbRepos : List BBRepo) (l : String) :
    tally_get (gh_repositories_per_language_of ghRepos) l =
        ghRepos.countP (fun r => norm_language r.language == l) ∧
    tally_get (bb_repositories_per_language_of bbRepos) l =
        bbRepos.countP (fun r => norm_language r.language == l) ∧
    norm_language none = "UNKNOWN" ∧
    gh_repositories_per_language_of
        [ { fork := false, stargazers_count := 0, open_issues_count := 0,
            language := some "Go", topics := [] },
          { fork := false, stargazers_count := 0, open_issues_count := 0,
            language := none, topics := [] },
          { fork := false, stargazers_count := 0, open_issues_count := 0,
            language := some "Go", topics := [] } ] =
      [("Go", 2), ("UNKNOWN", 1)] ∧
    bb_repositories_per_language_of
        [ { parent := false, language := some "Go", has_issues := false,
            issues_href := "" },
          { parent := false, language := none, has_issues := false,
            issues_href := "" },
          { parent := false, language := some "Go", has_issues := false,
            issues_href := "" } ] =
      [("Go", 2), ("UNKNOWN", 1)] := by
  refine ⟨?_, ?_, rfl, by decide, by decide⟩
  · rw [gh_repositories_per_language_of, tally_get_tally,
      count_map_eq_countP]
  · rw [bb_repositories_per_language_of, tally_get_tally,
      count_map_eq_countP]

/-- C1: every metric property of both adapters is memoized against the
instance's loaded state: whenever a read succeeds with value `v`, final
state `p'` and some number of requests, any later read of the same property
on `p'` (under any environment and any fuel, i.e. regardless of what the
network would now answer) returns the identical value `v`, leaves the state
`p'` unchanged, and issues zero requests. -/
theorem C1_metric_properties_memoized :
    (∀ (env : GHEnv) (fuel : Nat) (p : GHProfile) (v : List GHRepo)
       (p' : GHProfile) (n : Nat),
      gh_public_repositories env fuel p = PropResult.ok v p' n →
      ∀ (env₂ : GHEnv) (fuel₂ : Nat),
        gh_public_repositories env₂ fuel₂ p' = PropResult.ok v p' 0) ∧
    (∀ (env : GHEnv) (fuel : Nat) (p : GHProfile) (v : List GHRepo)
       (p' : GHProfile) (n : Nat),
      gh_starred_repositories env fuel p = PropResult.ok v p' n →
      ∀ (env₂ : GHEnv) (fuel₂ : Nat),
        gh_starred_repositories env₂ fuel₂ p' = PropResult.ok v p' 0) ∧
    (∀ (env : GHEnv) (fuel : Nat) (p : GHProfile) (v : Nat) (p' : GHProfile)
       (n : Nat),
      gh_count_stars_given env fuel p = PropResult.ok v p' n →
      ∀ (env₂ : GHEnv) (fuel₂ : Nat),
        gh_count_stars_given env₂ fuel₂ p' = PropResult.ok v p' 0) ∧
    (∀ (env : GHEnv) (fuel : Nat) (p : GHProfile) (v : Nat) (p' : GHProfile)
       (n : Nat),
      gh_count_stars_received env fuel p = PropResult.ok v p' n →
      ∀ (env₂ : GHEnv) (fuel₂ : Nat),
        gh_count_stars_received env₂ fuel₂ p' = PropResult.ok v p' 0) ∧
    (∀ (env : GHEnv) (fuel : Nat) (p : GHProfile) (v : Nat) (p' : GHProfile)
       (n : Nat),
      gh_count_original_public_repositories env fuel p = PropResult.ok v p' n →
      ∀ (env₂ : GHEnv) (fuel₂ : Nat),
        gh_count_original_public_repositories env₂ fuel₂ p' =
          PropResult.ok v p' 0) ∧
    (∀ (env : GHEnv) (fuel : Nat) (p : GHProfile) (v : Nat) (p' : GHProfile)
       (n : Nat),
      gh_count_forked_public_repositories env fuel p = PropResult.ok v p' n →
      ∀ (env₂ : GHEnv) (fuel₂ : Nat),
        gh_count_forked_public_repositories env₂ fuel₂ p' =
          PropResult.ok v p' 0) ∧
    (∀ (env : GHEnv) (fuel : Nat) (p : GHProfile) (v : Nat) (p' : GHProfile)
       (n : Nat),
      gh_count_open_issues env fuel p = PropResult.ok v p' n →
      ∀ (env₂ : GHEnv) (fuel₂ : Nat),
        gh_count_open_issues env₂ fuel₂ p' = PropResult.ok v p' 0) ∧
    (∀ (env : GHEnv) (fuel : Nat) (p : GHProfile) (v : Nat) (p' : GHProfile)
       (n : Nat),
      gh_count_followers env fuel p = PropResult.ok v p' n →
      ∀ (env₂ : GHEnv) (fuel₂ : Nat),
        gh_count_followers env₂ fuel₂ p' = PropResult.ok v p' 0) ∧
    (∀ (env : GHEnv) (fuel : Nat) (p : GHProfile) (v : List (String × Nat))
       (p' : GHProfile) (n : Nat),
      gh_repositories_per_language env fuel p = PropResult.ok v p' n →
      ∀ (env₂ : GHEnv) (fuel₂ : Nat),
        gh_repositories_per_language env₂ fuel₂ p' = PropResult.ok v p' 0) ∧
    (∀ (env : GHEnv) (fuel : Nat) (p : GHProfile) (v : List (String × Nat))
       (p' : GHProfile) (n : Nat),
      gh_repositories_per_topic env fuel p = PropResult.ok v p' n →
      ∀ (env₂ : GHEnv) (fuel₂ : Nat),
        gh_repositories_per_topic env₂ fuel₂ p' = PropResult.ok v p' 0) ∧
    (∀ (env : BBEnv) (fuel : Nat) (p : BBProfile) (v : List BBRepo)
       (p' : BBProfile) (n : Nat),
      bb_public_repositories env fuel p = PropResult.ok v p' n →
      ∀ (env₂ : BBEnv) (fuel₂ : Nat),
        bb_public_repositories env₂ fuel₂ p' = PropResult.ok v p' 0) ∧
    (∀ (env : BBEnv) (fuel : Nat) (p : BBProfile) (v : Nat) (p' : BBProfile)
       (n : Nat),
      bb_count_stars_given env fuel p = PropResult.ok v p' n →
      ∀ (env₂ : BBEnv) (fuel₂ : Nat),
        bb_count_stars_given env₂ fuel₂ p' = PropResult.ok v p' 0) ∧
    (∀ (env : BBEnv) (fuel : Nat) (p : BBProfile) (v : Nat) (p' : BBProfile)
       (n : Nat),
      bb_count_stars_received env fuel p = PropResult.ok v p' n →
      ∀ (env₂ : BBEnv) (fuel₂ : Nat),
        bb_count_stars_received env₂ fuel₂ p' = PropResult.ok v p' 0) ∧
    (∀ (env : BBEnv) (fuel : Nat) (p : BBProfile) (v : Nat) (p' : BBProfile)
       (n : Nat),
      bb_count_original_public_repositories env fuel p = PropResult.ok v p' n →
      ∀ (env₂ : BBEnv) (fuel₂ : Nat),
        bb_count_original_public_repositories env₂ fuel₂ p' =
          PropResult.ok v p' 0) ∧
    (∀ (env : BBEnv) (fuel : Nat) (p : BBProfile) (v : Nat) (p' : BBProfile)
       (n : Nat),
      bb_count_forked_public_repositories env fuel p = PropResult.ok v p' n →
      ∀ (env₂ : BBEnv) (fuel₂ : Nat),
        bb_count_forked_public_repositories env₂ fuel₂ p' =
          PropResult.ok v p' 0) ∧
    (∀ (env : BBEnv) (fuel : Nat) (p : BBProfile) (v : Nat) (p' : BBProfile)
       (n : Nat),
      bb_count_open_issues env fuel p = PropResult.ok v p' n →
      ∀ (env₂ : BBEnv) (fuel₂ : Nat),
        bb_count_open_issues env₂ fuel₂ p' = PropResult.ok v p' 0) ∧
    (∀ (env : BBEnv) (fuel : Nat) (p : BBProfile) (v : Nat) (p' : BBProfile)
       (n : Nat),
      bb_count_followers env fuel p = PropResult.ok v p' n →
      ∀ (env₂ : BBEnv) (fuel₂ : Nat),
        bb_count_followers env₂ fuel₂ p' = PropResult.ok v p' 0) ∧
    (∀ (env : BBEnv) (fuel : Nat) (p : BBProfile) (v : List (String × Nat))
       (p' : BBProfile) (n : Nat),
      bb_repositories_per_language env fuel p = PropResult.ok v p' n →
      ∀ (env₂ : BBEnv) (fuel₂ : Nat),
        bb_repositories_per_language env₂ fuel₂ p' = PropResult.ok v p' 0) ∧
    (∀ (env : BBEnv) (fuel : Nat) (p : BBProfile) (v : List (String × Nat))
       (p' : BBProfile) (n : Nat),
      bb_repositories_per_topic env fuel p = PropResult.ok v p' n →
      ∀ (env₂ : BBEnv) (fuel₂ : Nat),
        bb_repositories_per_topic env₂ fuel₂ p' = PropResult.ok v p' 0) :=
  ⟨fun env fuel p v p' n h => (gh_public_repositories_memo env fuel p v p' n h).2,
   fun env fuel p v p' n h => (gh_starred_repositories_memo env fuel p v p' n h).2,
   fun env fuel p v p' n h => gh_count_stars_given_memo env fuel p v p' n h,
   fun env fuel p v p' n h => gh_count_stars_received_memo env fuel p v p' n h,
   fun env fuel p v p' n h => gh_count_original_memo env fuel p v p' n h,
   fun env fuel p v p' n h => gh_count_forked_memo env fuel p v p' n h,
   fun env fuel p v p' n h => gh_count_open_issues_memo env fuel p v p' n h,
   fun env fuel p v p' n h => (gh_count_followers_memo env fuel p v p' n h).2,
   fun env fuel p v p' n h => gh_repositories_per_language_memo env fuel p v p' n h,
   fun env fuel p v p' n h => gh_repositories_per_topic_memo env fuel p v p' n h,
   fun env fuel p v p' n h => (bb_public_repositories_memo env fuel p v p' n h).2,
   fun env fuel p v p' n h => bb_count_stars_given_memo env fuel p v p' n h,
   fun env fuel p v p' n h => bb_count_stars_received_memo env fuel p v p' n h,
   fun env fuel p v p' n h => bb_count_original_memo env fuel p v p' n h,
   fun env fuel p v p' n h => bb_count_forked_memo env fuel p v p' n h,
   fun env fuel p v p' n h => (bb_count_open_issues_memo env fuel p v p' n h).2,
   fun env fuel p v p' n h => (bb_count_followers_memo env fuel p v p' n h).2,
   fun env fuel p v p' n h => bb_repositories_per_language_memo env fuel p v p' n h,
   fun env fuel p v p' n h => bb_repositories_per_topic_memo env fuel p v p' n h⟩

/-- With an empty cache entry, a successful `public_repositories` read on the
GitHub adapter issues at least one request. -/
theorem gh_public_repositories_fresh_pos (env : GHEnv) (fuel : Nat)
    (p : GHProfile) (v : List GHRepo) (p' : GHProfile) (n : Nat)
    (hc : p.loaded_state.public_repositories = none)
    (h : gh_public_repositories env fuel p = PropResult.ok v p' n) :
    1 ≤ n := by
  unfold gh_public_repositories at h
  split at h
  · rename_i repos heq
    rw [hc] at heq
    cases heq
  · split at h
    · simp at h
    · simp at h
    · rename_i repos nn heq
      simp only [PropResult.ok.injEq] at h
      obtain ⟨h1, h2, h3⟩ := h
      subst h3
      exact fetch_all_pages_pos "GitHub" env.reposAt (fun b => b)
        gh_get_next_linked_url fuel _ repos nn heq

/-- With an empty cache entry, a successful `starred_repositories` read on
the GitHub adapter issues at least one request. -/
theorem gh_starred_repositories_fresh_pos (env : GHEnv) (fuel : Nat)
    (p : GHProfile) (v : List GHRepo) (p' : GHProfile) (n : Nat)
    (hc : p.loaded_state.starred_repositories = none)
    (h : gh_starred_repositories env fuel p = PropResult.ok v p' n) :
    1 ≤ n := by
  unfold gh_starred_repositories at h
  split at h
  · rename_i repos heq
    rw [hc] at heq
    cases heq
  · split at h
    · simp at h
    · simp at h
    · rename_i repos nn heq
      simp only [PropResult.ok.injEq] at h
      obtain ⟨h1, h2, h3⟩ := h
      subst h3
      exact fetch_all_pages_pos "GitHub" env.starredAt (fun b => b)
        gh_get_next_linked_url fuel _ repos nn heq

/-- With an empty cache entry, a successful `count_followers` read on the
GitHub adapter issues at least one request. -/
theorem gh_count_followers_fresh_pos (env : GHEnv) (fuel : Nat)
    (p : GHProfile) (v : Nat) (p' : GHProfile) (n : Nat)
    (hc : p.loaded_state.count_followers = none)
    (h : gh_count_followers env fuel p = PropResult.ok v p' n) :
    1 ≤ n := by
  unfold gh_count_followers at h
  split at h
  · rename_i c heq
    rw [hc] at heq
    cases heq
  · split at h
    · simp at h
    · simp at h
    · rename_i c nn heq
      simp only [PropResult.ok.injEq] at h
      obtain ⟨h1, h2, h3⟩ := h
      subst h3
      exact gh_count_follower_pages_pos env fuel _ c nn heq

/-- With an empty cache entry, a successful `public_repositories` read on the
Bitbucket adapter issues at least one request. -/
theorem bb_public_repositories_fresh_pos (env : BBEnv) (fuel : Nat)
    (p : BBProfile) (v : List BBRepo) (p' : BBProfile) (n : Nat)
    (hc : p.loaded_state.public_repositories = none)
    (h : bb_public_repositories env fuel p = PropResult.ok v p' n) :
    1 ≤ n := by
  unfold bb_public_repositories at h
  split at h
  · rename_i repos heq
    rw [hc] at heq
    cases heq
  · split at h
    · simp at h
    · simp at h
    · rename_i repos nn heq
      simp only [PropResult.ok.injEq] at h
      obtain ⟨h1, h2, h3⟩ := h
      subst h3
      exact fetch_all_pages_pos "Bitbucket" env.reposAt (fun b => b.values)
        bb_get_next_linked_url fuel _ repos nn heq

/-- With empty cache entries for both the open-issue scalar and the
repository list, a successful `count_open_issues` read on the Bitbucket
adapter issues at least one request. -/
theorem bb_count_open_issues_fresh_pos (env : BBEnv) (fuel : Nat)
    (p : BBProfile) (v : Nat) (p' : BBProfile) (n : Nat)
    (hc1 : p.loaded_state.count_open_issues = none)
    (hc2 : p.loaded_state.public_repositories = none)
    (h : bb_count_open_issues env fuel p = PropResult.ok v p' n) :
    1 ≤ n := by
  unfold bb_count_open_issues at h
  split at h
  · rename_i c heq
    rw [hc1] at heq
    cases heq
  · split at h
    · simp at h
    · simp at h
    · rename_i repos q nn heq
      split at h
      · simp at h
      · rename_i s nn2 heq2
        simp only [PropResult.ok.injEq] at h
        obtain ⟨h1, h2, h3⟩ := h
        subst h3
        have := bb_public_repositories_fresh_pos env fuel p repos q nn hc2 heq
        omega

/-- With an empty cache entry, a successful `count_followers` read on the
Bitbucket adapter issues exactly one request. -/
theorem bb_count_followers_fresh_pos (env : BBEnv) (fuel : Nat)
    (p : BBProfile) (v : Nat) (p' : BBProfile) (n : Nat)
    (hc : p.loaded_state.count_followers = none)
    (h : bb_count_followers env fuel p = PropResult.ok v p' n) :
    1 ≤ n := by
  unfold bb_count_followers at h
  split at h
  · rename_i c heq
    rw [hc] at heq
    cases heq
  · split at h
    · simp at h
    · rename_i rs heq
      simp only [PropResult.ok.injEq] at h
      omega

/-- C8: `reset()` restores the freshly-constructed state: it empties the
whole cache (no partial entry survives) and changes nothing else (the
username is preserved; its type shows it consults no environment and issues
no request); consequently the next read of any fetching property after
`reset()` goes back to the network — whenever it succeeds it issues at least
one request. -/
theorem C8_reset_clears_cache :
    (∀ p : GHProfile, gh_reset p = GHProfile.mk' p.username) ∧
    (∀ p : GHProfile, (gh_reset p).loaded_state = GHLoaded.empty ∧
      (gh_reset p).username = p.username) ∧
    (∀ p : BBProfile, bb_reset p = BBProfile.mk' p.username) ∧
    (∀ p : BBProfile, (bb_reset p).loaded_state = BBLoaded.empty ∧
      (bb_reset p).username = p.username) ∧
    (∀ (env : GHEnv) (fuel : Nat) (p : GHProfile) (v : List GHRepo)
       (p' : GHProfile) (n : Nat),
      gh_public_repositories env fuel (gh_reset p) = PropResult.ok v p' n →
      1 ≤ n) ∧
    (∀ (env : GHEnv) (fuel : Nat) (p : GHProfile) (v : List GHRepo)
       (p' : GHProfile) (n : Nat),
      gh_starred_repositories env fuel (gh_reset p) = PropResult.ok v p' n →
      1 ≤ n) ∧
    (∀ (env : GHEnv) (fuel : Nat) (p : GHProfile) (v : Nat) (p' : GHProfile)
       (n : Nat),
      gh_count_followers env fuel (gh_reset p) = PropResult.ok v p' n →
      1 ≤ n) ∧
    (∀ (env : BBEnv) (fuel : Nat) (p : BBProfile) (v : List BBRepo)
       (p' : BBProfile) (n : Nat),
      bb_public_repositories env fuel (bb_reset p) = PropResult.ok v p' n →
      1 ≤ n) ∧
    (∀ (env : BBEnv) (fuel : Nat) (p : BBProfile) (v : Nat) (p' : BBProfile)
       (n : Nat),
      bb_count_open_issues env fuel (bb_reset p) = PropResult.ok v p' n →
      1 ≤ n) ∧
    (∀ (env : BBEnv) (fuel : Nat) (p : BBProfile) (v : Nat) (p' : BBProfile)
       (n : Nat),
      bb_count_followers env fuel (bb_reset p) = PropResult.ok v p' n →
      1 ≤ n) :=
  ⟨fun _ => rfl,
   fun _ => ⟨rfl, rfl⟩,
   fun _ => rfl,
   fun _ => ⟨rfl, rfl⟩,
   fun env fuel p v p' n h =>
     gh_public_repositories_fresh_pos env fuel (gh_reset p) v p' n rfl h,
   fun env fuel p v p' n h =>
     gh_starred_repositories_fresh_pos env fuel (gh_reset p) v p' n rfl h,
   fun env fuel p v p' n h =>
     gh_count_followers_fresh_pos env fuel (gh_reset p) v p' n rfl h,
   fun env fuel p v p' n h =>
     bb_public_repositories_fresh_pos env fuel (bb_reset p) v p' n rfl h,
   fun env fuel p v p' n h =>
     bb_count_open_issues_fresh_pos env fuel (bb_reset p) v p' n rfl rfl h,
   fun env fuel p v p' n h =>
     bb_count_followers_fresh_pos env fuel (bb_reset p) v p' n rfl h⟩

/-- A concrete GitHub repository record used to exercise the theorems. -/
def demoGHRepo : GHRepo :=
  { fork := false, stargazers_count := 3, open_issues_count := 1,
    language := some "Go", topics := ["cli"] }

/-- A second concrete GitHub repository record (a fork with no language). -/
def demoGHRepo2 : GHRepo :=
  { fork := true, stargazers_count := 2, open_issues_count := 0,
    language := none, topics := [] }

/-- A concrete GitHub environment: the repository listing spans two linked
pages, starred repositories and followers fit on one page each. -/
def demoGHEnv : GHEnv :=
  { reposAt := fun u =>
      if u == "page2" then
        { status := 200, reqMethod := "GET", reqUrl := u,
          body := [demoGHRepo2], links := [] }
      else
        { status := 200, reqMethod := "GET", reqUrl := u,
          body := [demoGHRepo], links := [("next", "page2")] },
    starredAt := fun u =>
      { status := 200, reqMethod := "GET", reqUrl := u,
        body := [demoGHRepo], links := [] },
    followersAt := fun u =>
      { status := 200, reqMethod := "GET", reqUrl := u,
        body := ["alice", "bob"], links := [] } }

/-- A freshly constructed GitHub profile for user `me`. -/
def demoGHProfile : GHProfile := GHProfile.mk' "me"

/-- The repository list `demoGHEnv` delivers for user `me`. -/
def demoGHReposVal : List GHRepo := [demoGHRepo, demoGHRepo2]

/-- `demoGHProfile` after a first read of `public_repositories`. -/
def afterGHPub : GHProfile :=
  { username := "me",
    loaded_state := { starred_repositories := none,
                      public_repositories := some demoGHReposVal,
                      count_followers := none } }

/-- `demoGHProfile` after a first read of `starred_repositories`. -/
def afterGHStar : GHProfile :=
  { username := "me",
    loaded_state := { starred_repositories := some [demoGHRepo],
                      public_repositories := none,
                      count_followers := none } }

/-- `demoGHProfile` after a first read of `count_followers`. -/
def afterGHFol : GHProfile :=
  { username := "me",
    loaded_state := { starred_repositories := none,
                      public_repositories := none,
                      count_followers := some 2 } }

/-- A concrete Bitbucket repository record with issue tracking enabled. -/
def demoBBRepo : BBRepo :=
  { parent := false, language := some "Go", has_issues := true,
    issues_href := "ih" }

/-- A second concrete Bitbucket repository record (a fork, no issues, no
language). -/
def demoBBRepo2 : BBRepo :=
  { parent := true, language := none, has_issues := false,
    issues_href := "ih2" }

/-- A concrete Bitbucket environment: one repository page, an issue count of
4 for every issues sub-resource, a follower count of 7. -/
def demoBBEnv : BBEnv :=
  { reposAt := fun u =>
      { status := 200, reqMethod := "GET", reqUrl := u,
        body := { values := [demoBBRepo, demoBBRepo2], next := none },
        links := [] },
    issuesAt := fun u =>
      { status := 200, reqMethod := "GET", reqUrl := u, body := 4,
        links := [] },
    followersAt := fun u =>
      { status := 200, reqMethod := "GET", reqUrl := u, body := 7,
        links := [] } }

/-- A freshly constructed Bitbucket profile for user `me`. -/
def demoBBProfile : BBProfile := BBProfile.mk' "me"

/-- The repository list `demoBBEnv` delivers for user `me`. -/
def demoBBReposVal : List BBRepo := [demoBBRepo, demoBBRepo2]

/-- `demoBBProfile` after a first read of `public_repositories`. -/
def afterBBPub : BBProfile :=
  { username := "me",
    loaded_state := { public_repositories := some demoBBReposVal,
                      count_open_issues := none,
                      count_followers := none } }

/-- `demoBBProfile` after a first read of `count_open_issues`. -/
def afterBBOpen : BBProfile :=
  { username := "me",
    loaded_state := { public_repositories := some demoBBReposVal,
                      count_open_issues := some 4,
                      count_followers := none } }

/-- `demoBBProfile` after a first read of `count_followers`. -/
def afterBBFol : BBProfile :=
  { username := "me",
    loaded_state := { public_repositories := none,
                      count_open_issues := none,
                      count_followers := some 7 } }

/-- C1 witness: for every metric property of both adapters, a concrete first
read against the demo environments followed by a second read at fuel 0 (no
network budget at all): the second read returns the same value, the same
state, and issues zero requests. -/
theorem C1_metric_properties_memoized_witness :
    gh_public_repositories demoGHEnv 0 afterGHPub =
        PropResult.ok demoGHReposVal afterGHPub 0 ∧
    gh_starred_repositories demoGHEnv 0 afterGHStar =
        PropResult.ok [demoGHRepo] afterGHStar 0 ∧
    gh_count_stars_given demoGHEnv 0 afterGHStar =
        PropResult.ok 1 afterGHStar 0 ∧
    gh_count_stars_received demoGHEnv 0 afterGHPub =
        PropResult.ok 5 afterGHPub 0 ∧
    gh_count_original_public_repositories demoGHEnv 0 afterGHPub =
        PropResult.ok 1 afterGHPub 0 ∧
    gh_count_forked_public_repositories demoGHEnv 0 afterGHPub =
        PropResult.ok 1 afterGHPub 0 ∧
    gh_count_open_issues demoGHEnv 0 afterGHPub =
        PropResult.ok 1 afterGHPub 0 ∧
    gh_count_followers demoGHEnv 0 afterGHFol =
        PropResult.ok 2 afterGHFol 0 ∧
    gh_repositories_per_language demoGHEnv 0 afterGHPub =
        PropResult.ok [("Go", 1), ("UNKNOWN", 1)] afterGHPub 0 ∧
    gh_repositories_per_topic demoGHEnv 0 afterGHPub =
        PropResult.ok [("cli", 1)] afterGHPub 0 ∧
    bb_public_repositories demoBBEnv 0 afterBBPub =
        PropResult.ok demoBBReposVal afterBBPub 0 ∧
    bb_count_stars_given demoBBEnv 0 demoBBProfile =
        PropResult.ok 0 demoBBProfile 0 ∧
    bb_count_stars_received demoBBEnv 0 demoBBProfile =
        PropResult.ok 0 demoBBProfile 0 ∧
    bb_count_original_public_repositories demoBBEnv 0 afterBBPub =
        PropResult.ok 1 afterBBPub 0 ∧
    bb_count_forked_public_repositories demoBBEnv 0 afterBBPub =
        PropResult.ok 1 afterBBPub 0 ∧
    bb_count_open_issues demoBBEnv 0 afterBBOpen =
        PropResult.ok 4 afterBBOpen 0 ∧
    bb_count_followers demoBBEnv 0 afterBBFol =
        PropResult.ok 7 afterBBFol 0 ∧
    bb_repositories_per_language demoBBEnv 0 afterBBPub =
        PropResult.ok [("Go", 1), ("UNKNOWN", 1)] afterBBPub 0 ∧
    bb_repositories_per_topic demoBBEnv 0 demoBBProfile =
        PropResult.ok [] demoBBProfile 0 := by
  obtain ⟨h1, h2, h3, h4, h5, h6, h7, h8, h9, h10, h11, h12, h13, h14, h15,
    h16, h17, h18, h19⟩ := C1_metric_properties_memoized
  exact ⟨h1 demoGHEnv 2 demoGHProfile demoGHReposVal afterGHPub 2 rfl demoGHEnv 0,
    h2 demoGHEnv 1 demoGHProfile [demoGHRepo] afterGHStar 1 rfl demoGHEnv 0,
    h3 demoGHEnv 1 demoGHProfile 1 afterGHStar 1 rfl demoGHEnv 0,
    h4 demoGHEnv 2 demoGHProfile 5 afterGHPub 2 rfl demoGHEnv 0,
    h5 demoGHEnv 2 demoGHProfile 1 afterGHPub 2 rfl demoGHEnv 0,
    h6 demoGHEnv 2 demoGHProfile 1 afterGHPub 2 rfl demoGHEnv 0,
    h7 demoGHEnv 2 demoGHProfile 1 afterGHPub 2 rfl demoGHEnv 0,
    h8 demoGHEnv 1 demoGHProfile 2 afterGHFol 1 rfl demoGHEnv 0,
    h9 demoGHEnv 2 demoGHProfile [("Go", 1), ("UNKNOWN", 1)] afterGHPub 2 rfl demoGHEnv 0,
    h10 demoGHEnv 2 demoGHProfile [("cli", 1)] afterGHPub 2 rfl demoGHEnv 0,
    h11 demoBBEnv 1 demoBBProfile demoBBReposVal afterBBPub 1 rfl demoBBEnv 0,
    h12 demoBBEnv 0 demoBBProfile 0 demoBBProfile 0 rfl demoBBEnv 0,
    h13 demoBBEnv 0 demoBBProfile 0 demoBBProfile 0 rfl demoBBEnv 0,
    h14 demoBBEnv 1 demoBBProfile 1 afterBBPub 1 rfl demoBBEnv 0,
    h15 demoBBEnv 1 demoBBProfile 1 afterBBPub 1 rfl demoBBEnv 0,
    h16 demoBBEnv 1 demoBBProfile 4 afterBBOpen 2 rfl demoBBEnv 0,
    h17 demoBBEnv 0 demoBBProfile 7 afterBBFol 1 rfl demoBBEnv 0,
    h18 demoBBEnv 1 demoBBProfile [("Go", 1), ("UNKNOWN", 1)] afterBBPub 1 rfl demoBBEnv 0,
    h19 demoBBEnv 0 demoBBProfile [] demoBBProfile 0 rfl demoBBEnv 0⟩

/-- A concrete HEAD response to the validation endpoint carrying a given
status code. -/
def demoValRs (s : Nat) : Response Nat :=
  { status := s, reqMethod := "HEAD", reqUrl := "vu", body := 0, links := [] }

/-- C2 witness: `validate_username` evaluated at concrete 200, 404, 403 and
418 responses, plus a concrete instance of the classifier never producing
`ProfileNotFoundError`. -/
theorem C2_validate_username_classification_witness :
    validate_username "GitHub" "alice" (demoValRs 200) = Except.ok true ∧
    validate_username "GitHub" "alice" (demoValRs 404) =
      Except.error (ApiErr.profileNotFoundError
        ("GitHub" ++ " could not find a profile for user: " ++ "alice")) ∧
    validate_username "GitHub" "alice" (demoValRs 403) =
      Except.error (ApiErr.upstreamRateLimit "GitHub") ∧
    validate_username "GitHub" "alice" (demoValRs 418) =
      Except.error (ApiErr.apiError
        ("Received unexpected response for " ++ "HEAD" ++
         " request to " ++ "vu" ++ ": " ++ toString (418 : Nat))) ∧
    handle_response "GitHub" (demoValRs 404) [200] ≠
      Except.error (ApiErr.profileNotFoundError "nope") := by
  refine ⟨?_, ?_, ?_, ?_, ?_⟩
  · exact (@C2_validate_username_classification Nat Nat "GitHub" "alice"
      (demoValRs 200)).1 rfl
  · exact (@C2_validate_username_classification Nat Nat "GitHub" "alice"
      (demoValRs 404)).2.1 rfl
  · exact (@C2_validate_username_classification Nat Nat "GitHub" "alice"
      (demoValRs 403)).2.2.1 (by decide) (by decide) rfl
  · exact (@C2_validate_username_classification Nat Nat "GitHub" "alice"
      (demoValRs 418)).2.2.2.1 (by decide) (by decide) (by decide)
  · exact (@C2_validate_username_classification Nat Nat "GitHub" "alice"
      (demoValRs 404)).2.2.2.2.1 [200] "nope"

/-- C6 witness: the traversal evaluated over a concrete two-page GitHub
chain (generic loop and adapter property) and a concrete one-page Bitbucket
chain. -/
theorem C6_pagination_traversal_witness :
    fetch_all_pages "GitHub" demoGHEnv.reposAt (fun b => b)
        gh_get_next_linked_url 2
        (some ("https://api.github.com/users/" ++ "me" ++ "/repos")) =
      Fetched.ok demoGHReposVal 2 ∧
    gh_public_repositories demoGHEnv 2 demoGHProfile =
      PropResult.ok demoGHReposVal afterGHPub 2 ∧
    bb_public_repositories demoBBEnv 1 demoBBProfile =
      PropResult.ok demoBBReposVal afterBBPub 1 := by
  obtain ⟨hg, hgh, hbb⟩ := C6_pagination_traversal
  refine ⟨?_, ?_, ?_⟩
  · exact hg (List GHRepo) GHRepo "GitHub" demoGHEnv.reposAt (fun b => b)
      gh_get_next_linked_url
      ("https://api.github.com/users/" ++ "me" ++ "/repos") ["page2"] 2
      ⟨rfl, rfl, rfl, rfl⟩ (by decide)
  · exact hgh demoGHEnv "me" ["page2"] 2 ⟨rfl, rfl, rfl, rfl⟩ (by decide)
  · exact hbb demoBBEnv "me" [] 1 ⟨rfl, rfl⟩ (by decide)

/-- C8 witness: `reset()` applied to concrete populated profiles restores
the freshly-constructed instance, and the subsequent reads against the demo
environments issue a positive number of requests. -/
theorem C8_reset_clears_cache_witness :
    gh_reset afterGHPub = GHProfile.mk' "me" ∧
    bb_reset afterBBOpen = BBProfile.mk' "me" ∧
    (1 : Nat) ≤ 2 ∧ (1 : Nat) ≤ 1 ∧ (1 : Nat) ≤ 1 ∧
    (1 : Nat) ≤ 1 ∧ (1 : Nat) ≤ 2 ∧ (1 : Nat) ≤ 1 := by
  obtain ⟨h1, h2, h3, h4, h5, h6, h7, h8, h9, h10⟩ := C8_reset_clears_cache
  exact ⟨h1 afterGHPub, h3 afterBBOpen,
    h5 demoGHEnv 2 afterGHPub demoGHReposVal afterGHPub 2 rfl,
    h6 demoGHEnv 1 afterGHStar [demoGHRepo] afterGHStar 1 rfl,
    h7 demoGHEnv 1 afterGHFol 2 afterGHFol 1 rfl,
    h8 demoBBEnv 1 afterBBPub demoBBReposVal afterBBPub 1 rfl,
    h9 demoBBEnv 1 afterBBOpen 4 afterBBOpen 2 rfl,
    h10 demoBBEnv 1 afterBBFol 7 afterBBFol 1 rfl⟩

/-- C10 witness: the partition counts delivered by the stateful properties
over the two-record demo repository lists (one original, one fork, for each
adapter), and the exhaustiveness sum at those lists. -/
theorem C10_fork_partition_witness :
    gh_count_original_public_repositories demoGHEnv 2 demoGHProfile =
        PropResult.ok 1 afterGHPub 2 ∧
    gh_count_forked_public_repositories demoGHEnv 2 demoGHProfile =
        PropResult.ok 1 afterGHPub 2 ∧
    bb_count_original_public_repositories demoBBEnv 1 demoBBProfile =
        PropResult.ok 1 afterBBPub 1 ∧
    bb_count_forked_public_repositories demoBBEnv 1 demoBBProfile =
        PropResult.ok 1 afterBBPub 1 ∧
    gh_count_original_of demoGHReposVal + gh_count_forked_of demoGHReposVal =
        demoGHReposVal.length ∧
    bb_count_original_of demoBBReposVal + bb_count_forked_of demoBBReposVal =
        demoBBReposVal.length := by
  obtain ⟨g1, g2, g3, g4, g5, g6⟩ := C10_fork_partition
  have hgh := g5 demoGHEnv 2 demoGHProfile demoGHReposVal afterGHPub 2 rfl
  have hbb := g6 demoBBEnv 1 demoBBProfile demoBBReposVal afterBBPub 1 rfl
  exact ⟨hgh.1, hgh.2, hbb.1, hbb.2, g1 demoGHReposVal, g2 demoBBReposVal⟩
